import Mathlib

/-!
# accountslib: a verification development

A shallow embedding of the Go package `accountslib` (`client.go`, `business.go`,
`sanctioned_countries.go`) and theorems about its request shaping, input
validation and response classification.

Modelling conventions.

* Go `string` is Lean `String`; Go `len(s)` is the number of bytes of the UTF-8
  encoding, `String.utf8ByteSize`.  Go strings that are not valid UTF-8 have no
  counterpart here.
* A nil slice and an empty slice are both the empty list.
* Go `error` is `Option GoError` (`none` is `nil`).
* A call of a client method returns its Go results together with the list of
  requests it handed to `c.HttpClient.Do`, in order.
* The Go standard library and `github.com/google/uuid` are collaborators.  What
  the package needs from them and cannot be stated in a few lines (URL parsing
  and printing, `path.Join`, JSON, the clock) is a field of `GoEnv`; the small
  pure helpers (`url.PathEscape`, header canonicalisation, `fmt` verbs on strings
  and integers, `io.ReadAll`) are written out.
* `encoding/json` works on a struct through reflection.  A struct declared in the
  sources is handed to the decoder as its `Fields`: the JSON key of each field tag
  with the current value, in declaration order; the decoder returns the fields as
  it has set them.
-/

namespace Accountslib

set_option maxRecDepth 8192

/-! ## Go runtime values -/

/-- Go error values.  `new` is what `errors.New` and `fmt.Errorf` without `%w` build,
`wrap` is what `fmt.Errorf` with `%w` builds; `msg` is the complete message. -/
inductive GoError where
  | new (msg : String)
  | wrap (msg : String) (cause : GoError)
deriving DecidableEq, Repr

/-- The method `Error()` of an error value. -/
def GoError.Error : GoError → String
  | .new msg => msg
  | .wrap msg _ => msg

/-- The value of `fmt.Errorf(format ++ "%w", err)` where `format` has no other verb. -/
def Errorf_w (format : String) (err : GoError) : GoError :=
  .wrap (format ++ err.Error) err

/-- The type `uuid.UUID`, sixteen bytes, as the 128-bit number they spell. -/
abbrev UUID := Fin (2 ^ 128)

/-- The value `uuid.Nil`, all bytes zero. -/
def UUID.Nil : UUID := ⟨0, by norm_num⟩

/-- The type `time.Time`, as an instant in nanoseconds since the Unix epoch. -/
structure Time where
  unixNano : Int
deriving DecidableEq, Repr

/-- The zero value `time.Time{}`: January 1 of year 1, 00:00:00 UTC. -/
def Time.zero : Time := ⟨-62135596800 * 1000000000⟩

/-- A value of a struct field as `encoding/json` reads and writes it. -/
inductive FieldValue where
  | uuid (u : UUID)
  | time (t : Time)
  | bool (b : Bool)
deriving DecidableEq, Repr

/-- A struct as `encoding/json` sees it through reflection: for each field, in declaration
order, the JSON key given by the field tag and the value of the field. -/
abbrev Fields := List (String × FieldValue)

/-- The UUID under the key `key`; `uuid.Nil`, the zero value, when the key is not there. -/
def Fields.uuid (f : Fields) (key : String) : UUID :=
  match f.lookup key with
  | some (.uuid u) => u
  | _ => UUID.Nil

/-- The time under the key `key`; the zero value when the key is not there. -/
def Fields.time (f : Fields) (key : String) : Time :=
  match f.lookup key with
  | some (.time t) => t
  | _ => Time.zero

/-- The boolean under the key `key`; `false`, the zero value, when the key is not there. -/
def Fields.bool (f : Fields) (key : String) : Bool :=
  match f.lookup key with
  | some (.bool b) => b
  | _ => false

/-! ## Data model (`business.go`, `sanctioned_countries.go`) -/

/-- The struct `Business`. -/
structure Business where
  ID : UUID
  UserAccountID : UUID
  CreatedAt : Time
  UpdatedAt : Time
deriving DecidableEq, Repr

/-- The zero value of `Business`, what `var business Business` declares. -/
def Business.zero : Business :=
  { ID := UUID.Nil, UserAccountID := UUID.Nil, CreatedAt := Time.zero, UpdatedAt := Time.zero }

/-- The fields of a `Business` under the keys of its tags: `json:"id"`,
`json:"user_account_id"`, `json:"created_at"`, `json:"updated_at"`. -/
def Business.fields (b : Business) : Fields :=
  [("id", .uuid b.ID), ("user_account_id", .uuid b.UserAccountID),
    ("created_at", .time b.CreatedAt), ("updated_at", .time b.UpdatedAt)]

/-- The `Business` whose fields the decoder has set, read back under the keys of its tags. -/
def Business.ofFields (f : Fields) : Business :=
  { ID := f.uuid "id", UserAccountID := f.uuid "user_account_id",
    CreatedAt := f.time "created_at", UpdatedAt := f.time "updated_at" }

/-- The struct `CreateBusinessAccountInput`. -/
structure CreateBusinessAccountInput where
  UserID : UUID
  BusinessName : String
deriving DecidableEq, Repr

/-- The struct `UpdateBusinessAccountInput`. -/
structure UpdateBusinessAccountInput where
  UserID : UUID
  BusinessName : String
  NewBusinessName : String
  BusinessID : UUID
deriving DecidableEq, Repr

/-- The struct `AddMemberToBusinessAccountInput`. -/
structure AddMemberToBusinessAccountInput where
  UserID : UUID
  BusinessID : UUID
  RoleID : UUID
deriving DecidableEq, Repr

/-- The struct `UpdateMemberRoleInBusinessAccountInput`. -/
structure UpdateMemberRoleInBusinessAccountInput where
  BusinessID : UUID
  MemberUserID : UUID
  NewRoleID : UUID
deriving DecidableEq, Repr

/-- The struct `SanctionedCountry`. -/
structure SanctionedCountry where
  ID : UUID
  CountryCode : String
  CountryName : String
  AddedAt : Time
deriving DecidableEq, Repr

/-- Modelled from the spec: the struct `AccountMembership` is declared in a file of the
package that is not among the sources; the spec describes it as the association between a
business-account ID, a user ID, and a role ID. -/
structure AccountMembership where
  AccountID : UUID
  UserID : UUID
  RoleID : UUID
deriving DecidableEq, Repr

/-- Modelled from the spec: the struct `UpdateAccountMembershipEvent` is declared in a file
of the package that is not among the sources; its fields are the ones
`UpdateMemberRoleInBusinessAccount` fills in. -/
structure UpdateAccountMembershipEvent where
  AccountType : String
  AccountID : UUID
  UserID : UUID
  Role : String
deriving DecidableEq, Repr

/-! ## Input validators (`business.go`) -/

/-- The method `(*UpdateBusinessAccountInput).Validate`. -/
def UpdateBusinessAccountInput.Validate (u : UpdateBusinessAccountInput) : Option GoError :=
  if u.UserID = UUID.Nil then
    some (.new "userID cannot be empty")
  else if u.NewBusinessName = "" then
    some (.new "newBusinessName cannot be empty")
  else if u.BusinessID = UUID.Nil then
    some (.new "businessID cannot be empty")
  else
    none

/-- The method `(*AddMemberToBusinessAccountInput).Validate`. -/
def AddMemberToBusinessAccountInput.Validate (input : AddMemberToBusinessAccountInput) :
    Option GoError :=
  if input.UserID = UUID.Nil then
    some (.new "UserID cannot be empty")
  else if input.BusinessID = UUID.Nil then
    some (.new "BusinessID cannot be empty")
  else if input.RoleID = UUID.Nil then
    some (.new "RoleID cannot be empty")
  else
    none

/-- The method `(*UpdateMemberRoleInBusinessAccountInput).Validate`. -/
def UpdateMemberRoleInBusinessAccountInput.Validate
    (input : UpdateMemberRoleInBusinessAccountInput) : Option GoError :=
  if input.BusinessID = UUID.Nil then
    some (.new "BusinessID cannot be empty")
  else if input.MemberUserID = UUID.Nil then
    some (.new "MemberUserID cannot be empty")
  else if input.NewRoleID = UUID.Nil then
    some (.new "NewRoleID cannot be empty")
  else
    none

/-! ## HTTP values (`net/http`, `net/textproto`, `net/url`, `io`) -/

/-- The function `validHeaderFieldByte` of `net/textproto`: the RFC 7230 token bytes. -/
def validHeaderFieldByte (c : Nat) : Bool :=
  (48 ≤ c && c ≤ 57) || (97 ≤ c && c ≤ 122) || (65 ≤ c && c ≤ 90) ||
    [33, 35, 36, 37, 38, 39, 42, 43, 45, 46, 94, 95, 96, 124, 126].contains c

/-- The canonicalising loop of `canonicalMIMEHeaderKey`: upper case at the start and after
each dash, lower case elsewhere; `upper` is the loop variable of that name. -/
def canonicalizeBytes : Bool → List Char → List Char
  | _, [] => []
  | upper, c :: cs =>
    let n := c.toNat
    let c1 : Char :=
      if upper && (97 ≤ n && n ≤ 122) then Char.ofNat (n - 32)
      else if !upper && (65 ≤ n && n ≤ 90) then Char.ofNat (n + 32)
      else c
    c1 :: canonicalizeBytes (c1.toNat == 45) cs

/-- The function `textproto.CanonicalMIMEHeaderKey`: a key with a byte outside the token
set is returned unchanged, any other key is canonicalised. -/
def CanonicalMIMEHeaderKey (s : String) : String :=
  if s.data.all (fun c => validHeaderFieldByte c.toNat) then
    String.mk (canonicalizeBytes true s.data)
  else s

/-- The type `http.Header`, a map from canonical keys to value lists; `none` is an absent key. -/
abbrev Header := String → Option (List String)

/-- The empty header map that `http.NewRequest` installs. -/
def Header.empty : Header := fun _ => none

/-- The method `Header.Set`: replace the values of the canonical key by the single value. -/
def Header.Set (h : Header) (key value : String) : Header :=
  fun k => if k = CanonicalMIMEHeaderKey key then some [value] else h k

/-- The method `Header.Add`: append the value to the values of the canonical key. -/
def Header.Add (h : Header) (key value : String) : Header :=
  fun k => if k = CanonicalMIMEHeaderKey key then some ((h k).getD [] ++ [value]) else h k

/-- The method `Header.Values`: the values of the canonical key, `none` when absent. -/
def Header.Values (h : Header) (key : String) : Option (List String) :=
  h (CanonicalMIMEHeaderKey key)

/-- The struct `http.Request` as far as the package fills it in: method, the URL text
given to `http.NewRequest`, headers and the body bytes (`none` for a nil body). -/
structure Request where
  Method : String
  URL : String
  Header : Header
  Body : Option String

/-- A response body stream: the bytes that can be read and the error, if any, that the
stream reports after them. -/
structure Body where
  data : String
  readErr : Option GoError
deriving DecidableEq, Repr

/-- The function `io.ReadAll`: everything read, and the stream error. -/
def ReadAll (b : Body) : String × Option GoError := (b.data, b.readErr)

/-- The struct `http.Response` as far as the package reads it. -/
structure Response where
  StatusCode : Int
  Status : String
  Body : Body
deriving DecidableEq, Repr

/-- The struct `url.URL` as far as the package touches it. -/
structure URL where
  Scheme : String := ""
  Host : String := ""
  Path : String := ""
  RawQuery : String := ""
  Fragment : String := ""
deriving DecidableEq, Repr

/-- The struct `Client` of `client.go`; `HttpClient` is the method `Do` of the configured
`*http.Client`, one attempt per call. -/
structure Client where
  BaseURL : String
  HttpClient : Request → Except GoError Response
  Token : String
  ApiKey : String

/-- The function `NewClient` of `client.go`: the first optional HTTP client if one is given,
else `defaultClient`, which stands for `&http.Client{Timeout: time.Second * 10}`. -/
def NewClient (defaultClient : Request → Except GoError Response) (baseURL token apiKey : String)
    (httpClient : List (Request → Except GoError Response)) : Client :=
  let client :=
    match httpClient with
    | first :: _ => first
    | [] => defaultClient
  { BaseURL := baseURL, HttpClient := client, Token := token, ApiKey := apiKey }

/-- The values handed to `json.Marshal` by the package. -/
inductive Payload where
  | createBusiness (input : CreateBusinessAccountInput)
  | updateBusiness (input : UpdateBusinessAccountInput)
  | addMember (input : AddMemberToBusinessAccountInput)
  | membershipEvent (event : UpdateAccountMembershipEvent)
  | sanctionedCountry (country : SanctionedCountry)
deriving DecidableEq, Repr

/-- The library functions the package calls and this development leaves uninterpreted. -/
structure GoEnv where
  /-- The function `url.Parse`. -/
  urlParse : String → Except GoError URL
  /-- The method `(*url.URL).String`. -/
  urlString : URL → String
  /-- The method `(*url.URL).ResolveReference`, receiver first. -/
  resolveReference : URL → URL → URL
  /-- The function `path.Join`. -/
  pathJoin : List String → String
  /-- The method `uuid.UUID.String`. -/
  uuidString : UUID → String
  /-- The error of `http.NewRequest` for a method and a URL text, `none` when it succeeds. -/
  newRequestErr : String → String → Option GoError
  /-- The function `json.Marshal`. -/
  jsonMarshal : Payload → Except GoError String
  /-- The call `json.NewDecoder(body).Decode(&v)` for a struct `v` of the sources: the fields
  of `v` before the call go in, the fields as the decoder has set them come out. -/
  jsonDecode : Body → Fields → Except GoError Fields
  /-- The call `json.NewDecoder(body).Decode(&s)` for a nil slice `s` of structs of the
  sources: the fields of the zero element go in, the fields of the decoded elements come
  out. -/
  jsonDecodeSlice : Body → Fields → Except GoError (List Fields)
  /-- The call `json.NewDecoder(body).Decode` into a `[]AccountMembership`; the declaration
  of `AccountMembership`, and with it its field tags, is not among the sources. -/
  decodeMemberships : Body → Except GoError (List AccountMembership)
  /-- The function `time.Now` at the moment of the call. -/
  timeNow : Time

/-- The function `http.NewRequest`. -/
def NewRequest (env : GoEnv) (method url : String) (body : Option String) :
    Except GoError Request :=
  match env.newRequestErr method url with
  | some err => .error err
  | none => .ok { Method := method, URL := url, Header := Header.empty, Body := body }

/-- The function `shouldEscape` of `net/url` in mode `encodePathSegment`. -/
def shouldEscape (c : Nat) : Bool :=
  if (97 ≤ c && c ≤ 122) || (65 ≤ c && c ≤ 90) || (48 ≤ c && c ≤ 57) then false
  else if [45, 95, 46, 126].contains c then false
  else if [36, 38, 43, 44, 47, 58, 59, 61, 63, 64].contains c then
    c == 47 || c == 59 || c == 44 || c == 63
  else true

/-- The table `upperhex` of `net/url`. -/
def upperhex (n : Nat) : Char := "0123456789ABCDEF".data.getD n '0'

/-- The function `escape` of `net/url` in mode `encodePathSegment`, on bytes. -/
def escape (bytes : List Nat) : List Char :=
  bytes.flatMap fun c =>
    if shouldEscape c then ['%', upperhex (c / 16), upperhex (c % 16)] else [Char.ofNat c]

/-- The function `url.PathEscape`. -/
def PathEscape (s : String) : String :=
  String.mk (escape (s.toUTF8.data.toList.map UInt8.toNat))

/-- The Go results of a call and the requests it handed to the transport, in order. -/
structure Call (α : Type) where
  ret : α
  sent : List Request

/-- The verbs `%d` and `%v` of `fmt` on an `int`. -/
def itoa (n : Int) : String := toString n

/-! ## Operations of `business.go` -/

/-- The method `(*Client).CreateBusinessAccount`. -/
def CreateBusinessAccount (env : GoEnv) (c : Client) (input : CreateBusinessAccountInput) :
    Call (Option Business × Option GoError) :=
  match env.urlParse c.BaseURL with
  | .error err => ⟨(none, some err), []⟩
  | .ok requestURL =>
    let requestURL : URL :=
      { requestURL with Path := env.pathJoin [requestURL.Path, "/api/v1/business/"] }
    match env.jsonMarshal (.createBusiness input) with
    | .error err => ⟨(none, some err), []⟩
    | .ok payload =>
      match NewRequest env "POST" (env.urlString requestURL) (some payload) with
      | .error err => ⟨(none, some err), []⟩
      | .ok req =>
        let req := { req with Header := req.Header.Set "Content-Type" "application/json" }
        let req := { req with Header := req.Header.Set "Authorization" ("Bearer " ++ c.Token) }
        let req := { req with Header := req.Header.Set "X-Api-Key" c.ApiKey }
        match c.HttpClient req with
        | .error err => ⟨(none, some err), [req]⟩
        | .ok resp =>
          if resp.StatusCode ≠ 201 then
            let bodyBytes := (ReadAll resp.Body).1
            ⟨(none, some (.new ("failed to create business account: " ++ bodyBytes))), [req]⟩
          else
            let newBusinessAccount : Business := Business.zero
            match env.jsonDecode resp.Body newBusinessAccount.fields with
            | .error err => ⟨(none, some err), [req]⟩
            | .ok fields => ⟨(some (Business.ofFields fields), none), [req]⟩

/-- The method `(*Client).GetBusinessAccountByID`. -/
def GetBusinessAccountByID (env : GoEnv) (c : Client) (businessID : UUID) :
    Call (Option Business × Option GoError) :=
  match env.urlParse c.BaseURL with
  | .error err => ⟨(none, some (Errorf_w "parsing base url: " err)), []⟩
  | .ok u =>
    let u : URL := { u with Path := env.pathJoin [u.Path, "business", env.uuidString businessID] }
    match NewRequest env "GET" (env.urlString u) none with
    | .error err => ⟨(none, some (Errorf_w "creating request: " err)), []⟩
    | .ok req =>
      let req := { req with Header := req.Header.Add "Authorization" ("Bearer " ++ c.Token) }
      let req := { req with Header := req.Header.Add "X-API-Key" c.ApiKey }
      match c.HttpClient req with
      | .error err => ⟨(none, some (Errorf_w "doing request: " err)), [req]⟩
      | .ok resp =>
        if resp.StatusCode ≠ 200 then
          let body := (ReadAll resp.Body).1
          ⟨(none, some (.new ("bad status back from server: " ++ itoa resp.StatusCode ++
            " (" ++ body ++ ")"))), [req]⟩
        else
          let business : Business := Business.zero
          match env.jsonDecode resp.Body business.fields with
          | .error err => ⟨(none, some (Errorf_w "decoding response: " err)), [req]⟩
          | .ok fields => ⟨(some (Business.ofFields fields), none), [req]⟩

/-- The method `(*Client).GetBusinessAccountsByUserID`. -/
def GetBusinessAccountsByUserID (env : GoEnv) (c : Client) (userID : UUID) :
    Call (List Business × Option GoError) :=
  match env.urlParse c.BaseURL with
  | .error err => ⟨([], some err), []⟩
  | .ok baseURL =>
    let endpointPath := env.pathJoin ["users", env.uuidString userID, "business_accounts"]
    let endpointURL := env.resolveReference baseURL { Path := endpointPath }
    match NewRequest env "GET" (env.urlString endpointURL) none with
    | .error err => ⟨([], some err), []⟩
    | .ok req =>
      let req := { req with Header := req.Header.Set "Content-Type" "application/json" }
      let req := { req with Header := req.Header.Set "Authorization" ("Bearer " ++ c.Token) }
      match c.HttpClient req with
      | .error err => ⟨([], some err), [req]⟩
      | .ok res =>
        if res.StatusCode ≠ 200 then
          ⟨([], some (.new ("bad response from server: " ++ res.Status))), [req]⟩
        else
          match env.jsonDecodeSlice res.Body Business.zero.fields with
          | .error err => ⟨([], some err), [req]⟩
          | .ok businessAccounts => ⟨(businessAccounts.map Business.ofFields, none), [req]⟩

/-- The method `(*Client).UpdateBusinessAccount`. -/
def UpdateBusinessAccount (env : GoEnv) (c : Client) (input : UpdateBusinessAccountInput) :
    Call (Option GoError) :=
  match input.Validate with
  | some err => ⟨some err, []⟩
  | none =>
    match env.jsonMarshal (.updateBusiness input) with
    | .error err => ⟨some err, []⟩
    | .ok jsonPayload =>
      match NewRequest env "PUT" (c.BaseURL ++ "/" ++ env.uuidString input.BusinessID)
          (some jsonPayload) with
      | .error err => ⟨some err, []⟩
      | .ok req =>
        let req := { req with Header := req.Header.Set "Content-Type" "application/json" }
        let req := { req with Header := req.Header.Set "Authorization" ("Bearer " ++ c.Token) }
        let req := { req with Header := req.Header.Set "X-API-Key" c.ApiKey }
        match c.HttpClient req with
        | .error err => ⟨some err, [req]⟩
        | .ok res =>
          if res.StatusCode ≠ 200 then
            ⟨some (.new ("unexpected status code: " ++ itoa res.StatusCode)), [req]⟩
          else ⟨none, [req]⟩

/-- The method `(*Client).DeleteBusinessAccount`. -/
def DeleteBusinessAccount (env : GoEnv) (c : Client) (businessID : UUID) :
    Call (Option GoError) :=
  match env.urlParse c.BaseURL with
  | .error err => ⟨some (.new ("invalid base URL: " ++ err.Error)), []⟩
  | .ok u =>
    let u : URL := { u with Path := env.pathJoin [u.Path, "business", env.uuidString businessID] }
    match NewRequest env "DELETE" (env.urlString u) none with
    | .error err => ⟨some (.new ("could not create HTTP request: " ++ err.Error)), []⟩
    | .ok req =>
      let req :=
        if c.Token ≠ "" then
          { req with Header := req.Header.Add "Authorization" ("Bearer " ++ c.Token) }
        else req
      let req :=
        if c.ApiKey ≠ "" then { req with Header := req.Header.Add "X-Api-Key" c.ApiKey }
        else req
      match c.HttpClient req with
      | .error err => ⟨some (.new ("could not send HTTP request: " ++ err.Error)), [req]⟩
      | .ok resp =>
        if resp.StatusCode ≠ 200 then
          ⟨some (.new ("unexpected HTTP status: " ++ resp.Status)), [req]⟩
        else ⟨none, [req]⟩

/-- The method `(*Client).ListBusinessAccounts`. -/
def ListBusinessAccounts (env : GoEnv) (c : Client) : Call (List Business × Option GoError) :=
  match env.urlParse c.BaseURL with
  | .error err => ⟨([], some (Errorf_w "error parsing base URL: " err)), []⟩
  | .ok reqURL =>
    let reqURL : URL := { reqURL with Path := env.pathJoin [reqURL.Path, "business-accounts"] }
    match NewRequest env "GET" (env.urlString reqURL) none with
    | .error err => ⟨([], some (Errorf_w "error creating request: " err)), []⟩
    | .ok req =>
      let req := { req with Header := req.Header.Add "Authorization" ("Bearer " ++ c.Token) }
      let req := { req with Header := req.Header.Add "x-api-key" c.ApiKey }
      match c.HttpClient req with
      | .error err => ⟨([], some (Errorf_w "error sending request: " err)), [req]⟩
      | .ok resp =>
        if resp.StatusCode ≠ 200 then
          ⟨([], some (.new ("unexpected status code: " ++ itoa resp.StatusCode))), [req]⟩
        else
          match env.jsonDecodeSlice resp.Body Business.zero.fields with
          | .error err => ⟨([], some (Errorf_w "error decoding response: " err)), [req]⟩
          | .ok businessAccounts => ⟨(businessAccounts.map Business.ofFields, none), [req]⟩

/-- The method `(*Client).AddMemberToBusinessAccount`. -/
def AddMemberToBusinessAccount (env : GoEnv) (c : Client)
    (input : AddMemberToBusinessAccountInput) : Call (Option GoError) :=
  match input.Validate with
  | some err => ⟨some err, []⟩
  | none =>
    match env.urlParse c.BaseURL with
    | .error err => ⟨some err, []⟩
    | .ok requestURL =>
      let requestURL : URL :=
        { requestURL with
          Path := env.pathJoin
            [requestURL.Path, "businesses", env.uuidString input.BusinessID, "members"] }
      match env.jsonMarshal (.addMember input) with
      | .error err => ⟨some err, []⟩
      | .ok jsonData =>
        match NewRequest env "POST" (env.urlString requestURL) (some jsonData) with
        | .error err => ⟨some err, []⟩
        | .ok req =>
          let req := { req with Header := req.Header.Set "Content-Type" "application/json" }
          let req := { req with Header := req.Header.Set "Authorization" ("Bearer " ++ c.Token) }
          match c.HttpClient req with
          | .error err => ⟨some err, [req]⟩
          | .ok resp =>
            if resp.StatusCode ≠ 200 then
              ⟨some (.new ("server returned status: " ++ itoa resp.StatusCode)), [req]⟩
            else
              match (ReadAll resp.Body).2 with
              | some err => ⟨some err, [req]⟩
              | none => ⟨none, [req]⟩

/-- The method `(*Client).RemoveMemberFromBusinessAccount`. -/
def RemoveMemberFromBusinessAccount (env : GoEnv) (c : Client) (businessID memberID : UUID) :
    Call (Option GoError) :=
  match env.urlParse c.BaseURL with
  | .error err => ⟨some (Errorf_w "invalid base URL: " err), []⟩
  | .ok u =>
    let u : URL :=
      { u with
        Path := env.pathJoin
          [u.Path, "api", "businesses", env.uuidString businessID, "members",
            env.uuidString memberID] }
    match NewRequest env "DELETE" (env.urlString u) none with
    | .error err => ⟨some (Errorf_w "failed to create request: " err), []⟩
    | .ok req =>
      let req := { req with Header := req.Header.Set "Content-Type" "application/json" }
      let req := { req with Header := req.Header.Set "Authorization" ("Bearer " ++ c.Token) }
      match c.HttpClient req with
      | .error err => ⟨some (Errorf_w "request failed: " err), [req]⟩
      | .ok resp =>
        if resp.StatusCode ≠ 200 then
          let body := (ReadAll resp.Body).1
          ⟨some (.new ("unexpected response from server: " ++ body ++ " (" ++
            itoa resp.StatusCode ++ ")")), [req]⟩
        else ⟨none, [req]⟩

/-- The method `(*Client).GetMembersOfBusinessAccount`. -/
def GetMembersOfBusinessAccount (env : GoEnv) (c : Client) (businessId : UUID) :
    Call (List AccountMembership × Option GoError) :=
  match env.urlParse c.BaseURL with
  | .error err => ⟨([], some err), []⟩
  | .ok u =>
    let u : URL :=
      { u with
        Path := env.pathJoin [u.Path, "api/v1/businesses", env.uuidString businessId, "members"] }
    match NewRequest env "GET" (env.urlString u) none with
    | .error err => ⟨([], some err), []⟩
    | .ok req =>
      let req := { req with Header := req.Header.Set "Content-Type" "application/json" }
      let req := { req with Header := req.Header.Set "Authorization" ("Bearer " ++ c.Token) }
      match c.HttpClient req with
      | .error err => ⟨([], some err), [req]⟩
      | .ok resp =>
        if resp.StatusCode ≥ 400 then
          let bodyBytes := (ReadAll resp.Body).1
          ⟨([], some (.new ("bad response from server: " ++ bodyBytes))), [req]⟩
        else
          match env.decodeMemberships resp.Body with
          | .error err =>
            ⟨([], some (.new ("failed to decode response: " ++ err.Error))), [req]⟩
          | .ok memberships => ⟨(memberships, none), [req]⟩

/-- The method `(*Client).UpdateMemberRoleInBusinessAccount`. -/
def UpdateMemberRoleInBusinessAccount (env : GoEnv) (c : Client)
    (input : UpdateMemberRoleInBusinessAccountInput) : Call (Option GoError) :=
  match input.Validate with
  | some err => ⟨some err, []⟩
  | none =>
    match env.urlParse c.BaseURL with
    | .error err => ⟨some (Errorf_w "invalid base url: " err), []⟩
    | .ok updateURL =>
      let updateURL : URL :=
        { updateURL with
          Path := env.pathJoin
            [updateURL.Path, "api/v1/businesses", env.uuidString input.BusinessID, "members",
              env.uuidString input.MemberUserID] }
      let reqBody : UpdateAccountMembershipEvent :=
        { AccountType := "business"
          AccountID := input.BusinessID
          UserID := input.MemberUserID
          Role := env.uuidString input.NewRoleID }
      match env.jsonMarshal (.membershipEvent reqBody) with
      | .error err => ⟨some (Errorf_w "failed to encode request body: " err), []⟩
      | .ok reqBodyBytes =>
        match NewRequest env "PUT" (env.urlString updateURL) (some reqBodyBytes) with
        | .error err => ⟨some (Errorf_w "failed to create a request: " err), []⟩
        | .ok req =>
          let req := { req with Header := req.Header.Set "Content-Type" "application/json" }
          let req := { req with Header := req.Header.Set "Authorization" ("Bearer " ++ c.Token) }
          match c.HttpClient req with
          | .error err => ⟨some (Errorf_w "failed to send a request: " err), [req]⟩
          | .ok resp =>
            if resp.StatusCode ≠ 200 then
              let body := (ReadAll resp.Body).1
              ⟨some (.new ("api returned status " ++ itoa resp.StatusCode ++ ": " ++ body)),
                [req]⟩
            else ⟨none, [req]⟩

/-! ## Operations of `sanctioned_countries.go` -/

/-- The method `(*Client).IsCountrySanctioned`. -/
def IsCountrySanctioned (env : GoEnv) (c : Client) (countryCode : String) :
    Call (Bool × Option GoError) :=
  if countryCode.utf8ByteSize < 2 ∨ countryCode.utf8ByteSize > 3 then
    ⟨(false, some (.new "invalid country code")), []⟩
  else
    match NewRequest env "GET"
        (c.BaseURL ++ "/api/sanctions/countries/" ++ PathEscape countryCode) none with
    | .error err => ⟨(false, some (Errorf_w "unable to create new request: " err)), []⟩
    | .ok req =>
      let req := { req with Header := req.Header.Set "Content-Type" "application/json" }
      let req := { req with Header := req.Header.Set "Authorization" ("Bearer " ++ c.Token) }
      let req := { req with Header := req.Header.Set "X-API-Key" c.ApiKey }
      match c.HttpClient req with
      | .error err => ⟨(false, some (Errorf_w "unable to send request: " err)), [req]⟩
      | .ok res =>
        if res.StatusCode ≠ 200 then
          let body := (ReadAll res.Body).1
          ⟨(false, some (.new ("unexpected status code: got " ++ itoa res.StatusCode ++
            ", body: " ++ body))), [req]⟩
        else
          let result : Fields := [("isSanctioned", .bool false)]
          match env.jsonDecode res.Body result with
          | .error err =>
            ⟨(false, some (Errorf_w "unable to decode response body: " err)), [req]⟩
          | .ok result => ⟨(result.bool "isSanctioned", none), [req]⟩

/-- The method `(*Client).AddSanctionedCountry`. -/
def AddSanctionedCountry (env : GoEnv) (c : Client) (countryCode countryName : String) :
    Call (Option GoError) :=
  let payload : SanctionedCountry :=
    { ID := UUID.Nil, CountryCode := countryCode, CountryName := countryName,
      AddedAt := env.timeNow }
  match env.jsonMarshal (.sanctionedCountry payload) with
  | .error err => ⟨some err, []⟩
  | .ok jsonPayload =>
    match NewRequest env "POST" (c.BaseURL ++ "/api/sanctioned-countries") (some jsonPayload) with
    | .error err => ⟨some (Errorf_w "unable to create new request: " err), []⟩
    | .ok req =>
      let req := { req with Header := req.Header.Set "Content-Type" "application/json" }
      let req := { req with Header := req.Header.Set "Authorization" ("Bearer " ++ c.Token) }
      let req := { req with Header := req.Header.Set "X-API-Key" c.ApiKey }
      match c.HttpClient req with
      | .error err => ⟨some (Errorf_w "unable to send request: " err), [req]⟩
      | .ok res =>
        if res.StatusCode ≠ 200 then
          let body := (ReadAll res.Body).1
          ⟨some (.new ("unexpected status code: got " ++ itoa res.StatusCode ++
            ", body: " ++ body)), [req]⟩
        else ⟨none, [req]⟩

/-- The method `(*Client).RemoveSanctionedCountry`. -/
def RemoveSanctionedCountry (env : GoEnv) (c : Client) (countryCode : String) :
    Call (Option GoError) :=
  if countryCode.utf8ByteSize < 2 ∨ countryCode.utf8ByteSize > 3 then
    ⟨some (.new "invalid country code"), []⟩
  else
    match NewRequest env "DELETE" (c.BaseURL ++ "/api/sanctioned-countries/" ++ countryCode)
        none with
    | .error err => ⟨some (Errorf_w "unable to create new request: " err), []⟩
    | .ok req =>
      let req := { req with Header := req.Header.Set "Content-Type" "application/json" }
      let req := { req with Header := req.Header.Set "Authorization" ("Bearer " ++ c.Token) }
      let req := { req with Header := req.Header.Set "X-API-Key" c.ApiKey }
      match c.HttpClient req with
      | .error err => ⟨some (Errorf_w "unable to send request: " err), [req]⟩
      | .ok res =>
        if res.StatusCode ≠ 200 then
          let body := (ReadAll res.Body).1
          ⟨some (.new ("unexpected status code: got " ++ itoa res.StatusCode ++
            ", body: " ++ body)), [req]⟩
        else ⟨none, [req]⟩

/-! ## Test doubles

A stand-in for the library and a stub transport, used to run the operations on concrete
inputs.  On the inputs used below the stand-in returns what the Go library returns for the
base URL `http://localhost`; everything else it reports as unsupported. -/

/-- The hexadecimal digits of `n`, lower case, padded with zeros to `width` digits. -/
def hexPad (width n : Nat) : List Char :=
  let ds := Nat.toDigits 16 n
  List.replicate (width - ds.length) '0' ++ ds

/-- The text form of a UUID, `xxxxxxxx-xxxx-xxxx-xxxx-xxxxxxxxxxxx`. -/
def uuidText (u : UUID) : String :=
  let ds := hexPad 32 u.val
  String.mk (ds.take 8 ++ ['-'] ++ (ds.drop 8).take 4 ++ ['-'] ++ (ds.drop 12).take 4 ++ ['-'] ++
    (ds.drop 16).take 4 ++ ['-'] ++ ds.drop 20)

/-- A JSON string literal for a text that needs no escaping. -/
def quote (s : String) : String := "\"" ++ s ++ "\""

/-- Join the non-empty elements with slashes and drop one trailing slash: what `path.Join`
returns when no element has a dot segment or a doubled slash. -/
def joinPlain (elems : List String) : String :=
  let cs := ("/".intercalate (elems.filter (fun e => e ≠ ""))).data
  if cs.getLast? = some '/' ∧ 1 < cs.length then String.mk cs.dropLast else String.mk cs

/-- The JSON text of a payload whose texts need no escaping; a timestamp other than the
epoch is unsupported.  The keys of `UpdateAccountMembershipEvent` are its field names. -/
def marshalPlain : Payload → Except GoError String
  | .createBusiness i =>
    .ok ("\x7b\"user_id\":" ++ quote (uuidText i.UserID) ++ ",\"business_name\":" ++
      quote i.BusinessName ++ "\x7d")
  | .updateBusiness i =>
    .ok ("\x7b\"user_id\":" ++ quote (uuidText i.UserID) ++ ",\"business_name\":" ++
      quote i.BusinessName ++ ",\"new_business_name\":" ++ quote i.NewBusinessName ++
      ",\"business_id\":" ++ quote (uuidText i.BusinessID) ++ "\x7d")
  | .addMember i =>
    .ok ("\x7b\"user_id\":" ++ quote (uuidText i.UserID) ++ ",\"business_id\":" ++
      quote (uuidText i.BusinessID) ++ ",\"role_id\":" ++ quote (uuidText i.RoleID) ++ "\x7d")
  | .membershipEvent e =>
    .ok ("\x7b\"AccountType\":" ++ quote e.AccountType ++ ",\"AccountID\":" ++
      quote (uuidText e.AccountID) ++ ",\"UserID\":" ++ quote (uuidText e.UserID) ++
      ",\"Role\":" ++ quote e.Role ++ "\x7d")
  | .sanctionedCountry sc =>
    if sc.AddedAt.unixNano = 0 then
      .ok ("\x7b\"id\":" ++ quote (uuidText sc.ID) ++ ",\"country_code\":" ++
        quote sc.CountryCode ++ ",\"country_name\":" ++ quote sc.CountryName ++
        ",\"added_at\":\"1970-01-01T00:00:00Z\"\x7d")
    else .error (.new "unsupported timestamp")

/-- A business record for the stub server. -/
def sampleBusiness : Business :=
  { ID := 1, UserAccountID := 2, CreatedAt := ⟨0⟩, UpdatedAt := ⟨1000000000⟩ }

/-- The JSON encoding of `sampleBusiness`. -/
def sampleBusinessJSON : String :=
  "\x7b\"id\":\"00000000-0000-0000-0000-000000000001\"," ++
  "\"user_account_id\":\"00000000-0000-0000-0000-000000000002\"," ++
  "\"created_at\":\"1970-01-01T00:00:00Z\",\"updated_at\":\"1970-01-01T00:00:01Z\"\x7d"

/-- A membership record for the stub server. -/
def sampleMembership : AccountMembership := { AccountID := 1, UserID := 2, RoleID := 3 }

/-- A JSON text for `sampleMembership`; the keys are assumed, the declaration of
`AccountMembership` with its field tags is not among the sources. -/
def sampleMembershipJSON : String :=
  "\x7b\"account_id\":\"00000000-0000-0000-0000-000000000001\"," ++
  "\"user_id\":\"00000000-0000-0000-0000-000000000002\"," ++
  "\"role_id\":\"00000000-0000-0000-0000-000000000003\"\x7d"

/-- The stand-in for the library. -/
def sampleEnv : GoEnv where
  urlParse := fun s =>
    if s = "http://localhost" then .ok { Scheme := "http", Host := "localhost" }
    else .error (.new "unsupported base URL")
  urlString := fun u =>
    u.Scheme ++ "://" ++ u.Host ++
      (if u.Path ≠ "" ∧ u.Path.data.head? ≠ some '/' then "/" ++ u.Path else u.Path)
  resolveReference := fun base ref => { base with Path := "/" ++ ref.Path }
  pathJoin := joinPlain
  uuidString := uuidText
  newRequestErr := fun _ _ => none
  jsonMarshal := marshalPlain
  jsonDecode := fun b target =>
    if b.data = sampleBusinessJSON ∧ target.map Prod.fst = Business.zero.fields.map Prod.fst then
      .ok sampleBusiness.fields
    else if b.data = "\x7b\"isSanctioned\": true\x7d" ∧
        target.map Prod.fst = ["isSanctioned"] then
      .ok [("isSanctioned", .bool true)]
    else if b.data = "\x7b\"isSanctioned\": false\x7d" ∧
        target.map Prod.fst = ["isSanctioned"] then
      .ok [("isSanctioned", .bool false)]
    else .error (.new "unsupported JSON")
  jsonDecodeSlice := fun b target =>
    if target.map Prod.fst = Business.zero.fields.map Prod.fst then
      if b.data = "[]" then .ok []
      else if b.data = "[" ++ sampleBusinessJSON ++ "]" then .ok [sampleBusiness.fields]
      else .error (.new "unsupported JSON")
    else .error (.new "unsupported JSON")
  decodeMemberships := fun b =>
    if b.data = "[]" then .ok []
    else if b.data = "[" ++ sampleMembershipJSON ++ "]" then .ok [sampleMembership]
    else .error (.new "unsupported JSON")
  timeNow := ⟨0⟩

/-- A client for `http://localhost` with the bearer token `token` whose transport answers
every request with `resp`. -/
def stubClient (token : String) (resp : Response) : Client :=
  NewClient (fun _ => .error (.new "no network")) "http://localhost" token "key"
    [fun _ => .ok resp]

/-- A response with the given status code and body text. -/
def response (code : Int) (status body : String) : Response :=
  { StatusCode := code, Status := status, Body := { data := body, readErr := none } }

/-- The text `t` occurs in the text `s` verbatim, as a contiguous run of characters. -/
def Contains (s t : String) : Prop := t.data <:+: s.data

instance (s t : String) : Decidable (Contains s t) :=
  inferInstanceAs (Decidable (t.data <:+: s.data))

/-! ## Theorems -/

/-! ### Validation -/

theorem validate_update_business_iff (u : UpdateBusinessAccountInput) :
    u.Validate = none ↔
      (u.UserID ≠ UUID.Nil ∧ u.NewBusinessName ≠ "" ∧ u.BusinessID ≠ UUID.Nil) := by
  unfold UpdateBusinessAccountInput.Validate
  by_cases h1 : u.UserID = UUID.Nil <;> by_cases h2 : u.NewBusinessName = "" <;>
    by_cases h3 : u.BusinessID = UUID.Nil <;> simp [h1, h2, h3]

theorem validate_add_member_iff
    (a : AddMemberToBusinessAccountInput) :
    a.Validate = none ↔
      (a.UserID ≠ UUID.Nil ∧ a.BusinessID ≠ UUID.Nil ∧ a.RoleID ≠ UUID.Nil) := by
  unfold AddMemberToBusinessAccountInput.Validate
  by_cases h1 : a.UserID = UUID.Nil <;> by_cases h2 : a.BusinessID = UUID.Nil <;>
    by_cases h3 : a.RoleID = UUID.Nil <;> simp [h1, h2, h3]

theorem validate_update_member_role_iff
    (m : UpdateMemberRoleInBusinessAccountInput) :
    m.Validate = none ↔
      (m.BusinessID ≠ UUID.Nil ∧ m.MemberUserID ≠ UUID.Nil ∧ m.NewRoleID ≠ UUID.Nil) := by
  unfold UpdateMemberRoleInBusinessAccountInput.Validate
  by_cases h1 : m.BusinessID = UUID.Nil <;> by_cases h2 : m.MemberUserID = UUID.Nil <;>
    by_cases h3 : m.NewRoleID = UUID.Nil <;> simp [h1, h2, h3]

theorem UpdateBusinessAccount_invalid (env : GoEnv) (c : Client)
    (input : UpdateBusinessAccountInput) (h : input.Validate ≠ none) :
    UpdateBusinessAccount env c input = ⟨input.Validate, []⟩ := by
  unfold UpdateBusinessAccount
  cases hv : input.Validate with
  | none => exact absurd hv h
  | some err => rfl

theorem AddMemberToBusinessAccount_invalid (env : GoEnv) (c : Client)
    (input : AddMemberToBusinessAccountInput) (h : input.Validate ≠ none) :
    AddMemberToBusinessAccount env c input = ⟨input.Validate, []⟩ := by
  unfold AddMemberToBusinessAccount
  cases hv : input.Validate with
  | none => exact absurd hv h
  | some err => rfl

theorem UpdateMemberRoleInBusinessAccount_invalid (env : GoEnv) (c : Client)
    (input : UpdateMemberRoleInBusinessAccountInput) (h : input.Validate ≠ none) :
    UpdateMemberRoleInBusinessAccount env c input = ⟨input.Validate, []⟩ := by
  unfold UpdateMemberRoleInBusinessAccount
  cases hv : input.Validate with
  | none => exact absurd hv h
  | some err => rfl

/-! ### Country-code validation -/

theorem utf8Size_ascii (ch : Char) (h1 : ch.toNat < 128) : Char.utf8Size ch = 1 := by
  unfold Char.utf8Size
  have h2 : ch.val ≤ UInt32.ofNatCore 127 (by decide) := by
    show ch.val.toNat ≤ 127
    have : ch.val.toNat = ch.toNat := rfl
    omega
  rw [if_pos h2]

theorem utf8ByteSize_go_ascii (cs : List Char) (h : ∀ ch ∈ cs, ch.toNat < 128) :
    String.utf8ByteSize.go cs = cs.length := by
  induction cs with
  | nil => rfl
  | cons ch cs ih =>
    have h1 : ch.toNat < 128 := h ch (List.mem_cons_self _ _)
    simp only [String.utf8ByteSize.go, List.length_cons, utf8Size_ascii ch h1]
    rw [ih (fun x hx => h x (List.mem_cons_of_mem _ hx))]

theorem utf8ByteSize_ascii (s : String) (h : ∀ ch ∈ s.data, ch.toNat < 128) :
    s.utf8ByteSize = s.length := by
  cases s with
  | mk cs => exact utf8ByteSize_go_ascii cs h

theorem create_request_ne_invalid_code (x : String) :
    "unable to create new request: " ++ x ≠ "invalid country code" := by
  intro h
  have := congrArg String.data h
  simp at this

theorem send_request_ne_invalid_code (x : String) :
    "unable to send request: " ++ x ≠ "invalid country code" := by
  intro h
  have := congrArg String.data h
  simp at this

theorem unexpected_status_ne_invalid_code (x : String) :
    "unexpected status code: got " ++ x ≠ "invalid country code" := by
  intro h
  have := congrArg String.data h
  simp at this

theorem decode_body_ne_invalid_code (x : String) :
    "unable to decode response body: " ++ x ≠ "invalid country code" := by
  intro h
  have := congrArg String.data h
  simp at this

theorem IsCountrySanctioned_invalid_iff (env : GoEnv) (c : Client) (countryCode : String) :
    (IsCountrySanctioned env c countryCode).ret.2.map GoError.Error =
        some "invalid country code" ↔
      ¬ (countryCode.utf8ByteSize = 2 ∨ countryCode.utf8ByteSize = 3) := by
  simp only [IsCountrySanctioned]
  split
  · constructor
    · intro _; omega
    · intro _; rfl
  · constructor
    · intro h
      exfalso
      repeat' split at h
      all_goals simp_all [Errorf_w, GoError.Error, String.append_assoc,
        create_request_ne_invalid_code, send_request_ne_invalid_code,
        unexpected_status_ne_invalid_code, decode_body_ne_invalid_code]
    · intro h; omega

theorem RemoveSanctionedCountry_invalid_iff (env : GoEnv) (c : Client) (countryCode : String) :
    (RemoveSanctionedCountry env c countryCode).ret.map GoError.Error =
        some "invalid country code" ↔
      ¬ (countryCode.utf8ByteSize = 2 ∨ countryCode.utf8ByteSize = 3) := by
  simp only [RemoveSanctionedCountry]
  split
  · constructor
    · intro _; omega
    · intro _; rfl
  · constructor
    · intro h
      exfalso
      repeat' split at h
      all_goals simp_all [Errorf_w, GoError.Error, String.append_assoc,
        create_request_ne_invalid_code, send_request_ne_invalid_code,
        unexpected_status_ne_invalid_code, decode_body_ne_invalid_code]
    · intro h; omega

theorem country_code_invalid_unsent (env : GoEnv) (c : Client) (countryCode : String)
    (h : ¬ (countryCode.utf8ByteSize = 2 ∨ countryCode.utf8ByteSize = 3)) :
    IsCountrySanctioned env c countryCode =
      ⟨(false, some (.new "invalid country code")), []⟩ ∧
    RemoveSanctionedCountry env c countryCode = ⟨some (.new "invalid country code"), []⟩ := by
  have h1 : countryCode.utf8ByteSize < 2 ∨ countryCode.utf8ByteSize > 3 := by omega
  simp only [IsCountrySanctioned, RemoveSanctionedCountry, if_pos h1, and_self]


/-! ### Headers of the requests sent -/

theorem canonical_authorization : CanonicalMIMEHeaderKey "Authorization" = "Authorization" := by
  decide

theorem canonical_content_type : CanonicalMIMEHeaderKey "Content-Type" = "Content-Type" := by
  decide

theorem canonical_x_api_key : CanonicalMIMEHeaderKey "X-Api-Key" = "X-Api-Key" := by decide

theorem canonical_x_API_key : CanonicalMIMEHeaderKey "X-API-Key" = "X-Api-Key" := by decide

theorem canonical_x_api_key_lower : CanonicalMIMEHeaderKey "x-api-key" = "X-Api-Key" := by decide

theorem NewRequest_ok_iff (env : GoEnv) (method url : String) (body : Option String)
    (req : Request) :
    NewRequest env method url body = .ok req ↔
      env.newRequestErr method url = none ∧
        req = { Method := method, URL := url, Header := Header.empty, Body := body } := by
  unfold NewRequest
  cases env.newRequestErr method url with
  | none => simp [eq_comm]
  | some err => simp

theorem CreateBusinessAccount_authorization (env : GoEnv) (c : Client)
    (input : CreateBusinessAccountInput) :
    ∀ req ∈ (CreateBusinessAccount env c input).sent,
      req.Header.Values "Authorization" = some ["Bearer " ++ c.Token] := by
  intro req hreq
  simp only [CreateBusinessAccount] at hreq
  repeat' split at hreq
  all_goals simp_all [NewRequest_ok_iff, Header.Values, Header.Set, Header.Add, Header.empty,
    canonical_authorization, canonical_content_type, canonical_x_api_key, canonical_x_API_key,
    canonical_x_api_key_lower]

theorem GetBusinessAccountByID_authorization (env : GoEnv) (c : Client) (businessID : UUID) :
    ∀ req ∈ (GetBusinessAccountByID env c businessID).sent,
      req.Header.Values "Authorization" = some ["Bearer " ++ c.Token] := by
  intro req hreq
  simp only [GetBusinessAccountByID] at hreq
  repeat' split at hreq
  all_goals simp_all [NewRequest_ok_iff, Header.Values, Header.Set, Header.Add, Header.empty,
    canonical_authorization, canonical_content_type, canonical_x_api_key, canonical_x_API_key,
    canonical_x_api_key_lower]

theorem GetBusinessAccountsByUserID_authorization (env : GoEnv) (c : Client) (userID : UUID) :
    ∀ req ∈ (GetBusinessAccountsByUserID env c userID).sent,
      req.Header.Values "Authorization" = some ["Bearer " ++ c.Token] := by
  intro req hreq
  simp only [GetBusinessAccountsByUserID] at hreq
  repeat' split at hreq
  all_goals simp_all [NewRequest_ok_iff, Header.Values, Header.Set, Header.Add, Header.empty,
    canonical_authorization, canonical_content_type, canonical_x_api_key, canonical_x_API_key,
    canonical_x_api_key_lower]

theorem UpdateBusinessAccount_authorization (env : GoEnv) (c : Client)
    (input : UpdateBusinessAccountInput) :
    ∀ req ∈ (UpdateBusinessAccount env c input).sent,
      req.Header.Values "Authorization" = some ["Bearer " ++ c.Token] := by
  intro req hreq
  simp only [UpdateBusinessAccount] at hreq
  repeat' split at hreq
  all_goals simp_all [NewRequest_ok_iff, Header.Values, Header.Set, Header.Add, Header.empty,
    canonical_authorization, canonical_content_type, canonical_x_api_key, canonical_x_API_key,
    canonical_x_api_key_lower]

theorem ListBusinessAccounts_authorization (env : GoEnv) (c : Client) :
    ∀ req ∈ (ListBusinessAccounts env c).sent,
      req.Header.Values "Authorization" = some ["Bearer " ++ c.Token] := by
  intro req hreq
  simp only [ListBusinessAccounts] at hreq
  repeat' split at hreq
  all_goals simp_all [NewRequest_ok_iff, Header.Values, Header.Set, Header.Add, Header.empty,
    canonical_authorization, canonical_content_type, canonical_x_api_key, canonical_x_API_key,
    canonical_x_api_key_lower]

theorem AddMemberToBusinessAccount_authorization (env : GoEnv) (c : Client)
    (input : AddMemberToBusinessAccountInput) :
    ∀ req ∈ (AddMemberToBusinessAccount env c input).sent,
      req.Header.Values "Authorization" = some ["Bearer " ++ c.Token] := by
  intro req hreq
  simp only [AddMemberToBusinessAccount] at hreq
  repeat' split at hreq
  all_goals simp_all [NewRequest_ok_iff, Header.Values, Header.Set, Header.Add, Header.empty,
    canonical_authorization, canonical_content_type, canonical_x_api_key, canonical_x_API_key,
    canonical_x_api_key_lower]

theorem RemoveMemberFromBusinessAccount_authorization (env : GoEnv) (c : Client)
    (businessID memberID : UUID) :
    ∀ req ∈ (RemoveMemberFromBusinessAccount env c businessID memberID).sent,
      req.Header.Values "Authorization" = some ["Bearer " ++ c.Token] := by
  intro req hreq
  simp only [RemoveMemberFromBusinessAccount] at hreq
  repeat' split at hreq
  all_goals simp_all [NewRequest_ok_iff, Header.Values, Header.Set, Header.Add, Header.empty,
    canonical_authorization, canonical_content_type, canonical_x_api_key, canonical_x_API_key,
    canonical_x_api_key_lower]

theorem GetMembersOfBusinessAccount_authorization (env : GoEnv) (c : Client) (businessId : UUID) :
    ∀ req ∈ (GetMembersOfBusinessAccount env c businessId).sent,
      req.Header.Values "Authorization" = some ["Bearer " ++ c.Token] := by
  intro req hreq
  simp only [GetMembersOfBusinessAccount] at hreq
  repeat' split at hreq
  all_goals simp_all [NewRequest_ok_iff, Header.Values, Header.Set, Header.Add, Header.empty,
    canonical_authorization, canonical_content_type, canonical_x_api_key, canonical_x_API_key,
    canonical_x_api_key_lower]

theorem UpdateMemberRoleInBusinessAccount_authorization (env : GoEnv) (c : Client)
    (input : UpdateMemberRoleInBusinessAccountInput) :
    ∀ req ∈ (UpdateMemberRoleInBusinessAccount env c input).sent,
      req.Header.Values "Authorization" = some ["Bearer " ++ c.Token] := by
  intro req hreq
  simp only [UpdateMemberRoleInBusinessAccount] at hreq
  repeat' split at hreq
  all_goals simp_all [NewRequest_ok_iff, Header.Values, Header.Set, Header.Add, Header.empty,
    canonical_authorization, canonical_content_type, canonical_x_api_key, canonical_x_API_key,
    canonical_x_api_key_lower]

theorem IsCountrySanctioned_authorization (env : GoEnv) (c : Client) (countryCode : String) :
    ∀ req ∈ (IsCountrySanctioned env c countryCode).sent,
      req.Header.Values "Authorization" = some ["Bearer " ++ c.Token] := by
  intro req hreq
  simp only [IsCountrySanctioned] at hreq
  repeat' split at hreq
  all_goals simp_all [NewRequest_ok_iff, Header.Values, Header.Set, Header.Add, Header.empty,
    canonical_authorization, canonical_content_type, canonical_x_api_key, canonical_x_API_key,
    canonical_x_api_key_lower]

theorem AddSanctionedCountry_authorization (env : GoEnv) (c : Client)
    (countryCode countryName : String) :
    ∀ req ∈ (AddSanctionedCountry env c countryCode countryName).sent,
      req.Header.Values "Authorization" = some ["Bearer " ++ c.Token] := by
  intro req hreq
  simp only [AddSanctionedCountry] at hreq
  repeat' split at hreq
  all_goals simp_all [NewRequest_ok_iff, Header.Values, Header.Set, Header.Add, Header.empty,
    canonical_authorization, canonical_content_type, canonical_x_api_key, canonical_x_API_key,
    canonical_x_api_key_lower]

theorem RemoveSanctionedCountry_authorization (env : GoEnv) (c : Client) (countryCode : String) :
    ∀ req ∈ (RemoveSanctionedCountry env c countryCode).sent,
      req.Header.Values "Authorization" = some ["Bearer " ++ c.Token] := by
  intro req hreq
  simp only [RemoveSanctionedCountry] at hreq
  repeat' split at hreq
  all_goals simp_all [NewRequest_ok_iff, Header.Values, Header.Set, Header.Add, Header.empty,
    canonical_authorization, canonical_content_type, canonical_x_api_key, canonical_x_API_key,
    canonical_x_api_key_lower]

theorem DeleteBusinessAccount_authorization (env : GoEnv) (c : Client) (businessID : UUID) :
    ∀ req ∈ (DeleteBusinessAccount env c businessID).sent,
      req.Header.Values "Authorization" =
        if c.Token ≠ "" then some ["Bearer " ++ c.Token] else none := by
  intro req hreq
  simp only [DeleteBusinessAccount] at hreq
  repeat' split at hreq
  all_goals simp_all [NewRequest_ok_iff, Header.Values, Header.Set, Header.Add, Header.empty,
    canonical_authorization, canonical_content_type, canonical_x_api_key, canonical_x_API_key,
    canonical_x_api_key_lower]


/-! ### URLs of the country operations -/

theorem IsCountrySanctioned_url (env : GoEnv) (c : Client) (countryCode : String) :
    ∀ req ∈ (IsCountrySanctioned env c countryCode).sent,
      req.Method = "GET" ∧
      req.URL = c.BaseURL ++ "/api/sanctions/countries/" ++ PathEscape countryCode := by
  intro req hreq
  simp only [IsCountrySanctioned] at hreq
  repeat' split at hreq
  all_goals simp_all [NewRequest_ok_iff]

theorem RemoveSanctionedCountry_url (env : GoEnv) (c : Client) (countryCode : String) :
    ∀ req ∈ (RemoveSanctionedCountry env c countryCode).sent,
      req.Method = "DELETE" ∧
      req.URL = c.BaseURL ++ "/api/sanctioned-countries/" ++ countryCode := by
  intro req hreq
  simp only [RemoveSanctionedCountry] at hreq
  repeat' split at hreq
  all_goals simp_all [NewRequest_ok_iff]

theorem upperhex_mem (n : Nat) : upperhex n ∈ "0123456789ABCDEF".data := by
  unfold upperhex
  by_cases h : n < 16
  · interval_cases n <;> decide
  · have : "0123456789ABCDEF".data.length ≤ n := by
      have : "0123456789ABCDEF".data.length = 16 := by decide
      omega
    rw [List.getD_eq_default _ _ this]
    decide

theorem toNat_ofNat_byte (c : Nat) (h : c < 256) : (Char.ofNat c).toNat = c := by
  interval_cases c <;> rfl

theorem escape_structure_safe (bytes : List Nat) (hb : ∀ c ∈ bytes, c < 256) :
    ∀ ch ∈ escape bytes, ch ≠ '/' ∧ ch ≠ '?' ∧ ch ≠ '#' := by
  intro ch hch
  simp only [escape, List.mem_flatMap] at hch
  obtain ⟨c, hc, hmem⟩ := hch
  split at hmem
  · simp only [List.mem_cons, List.mem_singleton, List.not_mem_nil, or_false] at hmem
    have key : ∀ n, upperhex n ≠ '/' ∧ upperhex n ≠ '?' ∧ upperhex n ≠ '#' := by
      intro n
      have := upperhex_mem n
      refine ⟨?_, ?_, ?_⟩ <;> intro h <;> rw [h] at this <;> revert this <;> decide
    rcases hmem with h | h | h
    · subst h; decide
    · subst h; exact key _
    · subst h; exact key _
  · rename_i hne
    simp only [List.mem_singleton] at hmem
    subst hmem
    have hlt := hb c hc
    have h47 : c ≠ 47 := by rintro rfl; exact hne (by decide)
    have h63 : c ≠ 63 := by rintro rfl; exact hne (by decide)
    have h35 : c ≠ 35 := by rintro rfl; exact hne (by decide)
    have hn := toNat_ofNat_byte c hlt
    refine ⟨?_, ?_, ?_⟩ <;> intro h <;> rw [h] at hn <;> revert hn <;> simp <;> omega

theorem PathEscape_structure_safe (s : String) :
    ∀ ch ∈ (PathEscape s).data, ch ≠ '/' ∧ ch ≠ '?' ∧ ch ≠ '#' := by
  unfold PathEscape
  apply escape_structure_safe
  intro c hc
  simp only [List.mem_map] at hc
  obtain ⟨b, _, rfl⟩ := hc
  exact b.val.isLt

theorem AddSanctionedCountry_sends (env : GoEnv) (c : Client) (countryCode countryName : String)
    (payload : String)
    (hm : env.jsonMarshal (.sanctionedCountry
      { ID := UUID.Nil, CountryCode := countryCode, CountryName := countryName,
        AddedAt := env.timeNow }) = .ok payload)
    (hr : env.newRequestErr "POST" (c.BaseURL ++ "/api/sanctioned-countries") = none) :
    (AddSanctionedCountry env c countryCode countryName).sent.length = 1 := by
  simp only [AddSanctionedCountry, hm, NewRequest, hr]
  repeat' split
  all_goals simp


/-! ### Reading a decoded struct back -/

theorem Business.ofFields_fields (b : Business) : Business.ofFields b.fields = b := by
  cases b
  rfl

/-! ### Claims -/

/-- C1: an input with a missing required field is rejected before anything is sent.  For every
client, when a required identifier of `UpdateBusinessAccount`, `AddMemberToBusinessAccount` or
`UpdateMemberRoleInBusinessAccount` is the nil UUID, or the `NewBusinessName` of
`UpdateBusinessAccount` is empty, the operation returns the error of its validator, which is
not nil, and hands no request to the transport. -/
theorem missing_required_field_rejected_unsent (env : GoEnv) (c : Client) :
    (∀ input : UpdateBusinessAccountInput,
      (input.UserID = UUID.Nil ∨ input.NewBusinessName = "" ∨ input.BusinessID = UUID.Nil) →
        input.Validate ≠ none ∧
        (UpdateBusinessAccount env c input).ret = input.Validate ∧
        (UpdateBusinessAccount env c input).sent = []) ∧
    (∀ input : AddMemberToBusinessAccountInput,
      (input.UserID = UUID.Nil ∨ input.BusinessID = UUID.Nil ∨ input.RoleID = UUID.Nil) →
        input.Validate ≠ none ∧
        (AddMemberToBusinessAccount env c input).ret = input.Validate ∧
        (AddMemberToBusinessAccount env c input).sent = []) ∧
    (∀ input : UpdateMemberRoleInBusinessAccountInput,
      (input.BusinessID = UUID.Nil ∨ input.MemberUserID = UUID.Nil ∨
          input.NewRoleID = UUID.Nil) →
        input.Validate ≠ none ∧
        (UpdateMemberRoleInBusinessAccount env c input).ret = input.Validate ∧
        (UpdateMemberRoleInBusinessAccount env c input).sent = []) := by
  refine ⟨fun input h => ?_, fun input h => ?_, fun input h => ?_⟩
  · have hv : input.Validate ≠ none := by
      rw [Ne, validate_update_business_iff]
      tauto
    rw [UpdateBusinessAccount_invalid env c input hv]
    exact ⟨hv, rfl, rfl⟩
  · have hv : input.Validate ≠ none := by
      rw [Ne, validate_add_member_iff]
      tauto
    rw [AddMemberToBusinessAccount_invalid env c input hv]
    exact ⟨hv, rfl, rfl⟩
  · have hv : input.Validate ≠ none := by
      rw [Ne, validate_update_member_role_iff]
      tauto
    rw [UpdateMemberRoleInBusinessAccount_invalid env c input hv]
    exact ⟨hv, rfl, rfl⟩

/-- Witness for C1: an empty new name, a nil role ID and a nil business ID are each rejected
with the validator's message while the stub transport sees no request. -/
theorem missing_required_field_rejected_unsent_witness :
    ((⟨1, "old", "", 2⟩ : UpdateBusinessAccountInput).NewBusinessName = "" ∧
      (UpdateBusinessAccount sampleEnv (stubClient "t" (response 200 "200 OK" ""))
        ⟨1, "old", "", 2⟩).ret = some (.new "newBusinessName cannot be empty") ∧
      (UpdateBusinessAccount sampleEnv (stubClient "t" (response 200 "200 OK" ""))
        ⟨1, "old", "", 2⟩).sent = []) ∧
    ((⟨1, 2, UUID.Nil⟩ : AddMemberToBusinessAccountInput).RoleID = UUID.Nil ∧
      (AddMemberToBusinessAccount sampleEnv (stubClient "t" (response 200 "200 OK" ""))
        ⟨1, 2, UUID.Nil⟩).ret = some (.new "RoleID cannot be empty") ∧
      (AddMemberToBusinessAccount sampleEnv (stubClient "t" (response 200 "200 OK" ""))
        ⟨1, 2, UUID.Nil⟩).sent = []) ∧
    ((⟨UUID.Nil, 2, 3⟩ : UpdateMemberRoleInBusinessAccountInput).BusinessID = UUID.Nil ∧
      (UpdateMemberRoleInBusinessAccount sampleEnv (stubClient "t" (response 200 "200 OK" ""))
        ⟨UUID.Nil, 2, 3⟩).ret = some (.new "BusinessID cannot be empty") ∧
      (UpdateMemberRoleInBusinessAccount sampleEnv (stubClient "t" (response 200 "200 OK" ""))
        ⟨UUID.Nil, 2, 3⟩).sent = []) :=
  ⟨⟨rfl, ((missing_required_field_rejected_unsent sampleEnv
      (stubClient "t" (response 200 "200 OK" ""))).1 ⟨1, "old", "", 2⟩
        (Or.inr (Or.inl rfl))).2⟩,
   ⟨rfl, ((missing_required_field_rejected_unsent sampleEnv
      (stubClient "t" (response 200 "200 OK" ""))).2.1 ⟨1, 2, UUID.Nil⟩
        (Or.inr (Or.inr rfl))).2⟩,
   ⟨rfl, ((missing_required_field_rejected_unsent sampleEnv
      (stubClient "t" (response 200 "200 OK" ""))).2.2 ⟨UUID.Nil, 2, 3⟩ (Or.inl rfl)).2⟩⟩

/-- C10: each validator returns nil exactly when all its required fields are present.
`UpdateBusinessAccountInput.Validate` returns nil iff `UserID` is non-nil, `NewBusinessName`
is non-empty and `BusinessID` is non-nil (its `BusinessName` plays no part);
`AddMemberToBusinessAccountInput.Validate` returns nil iff `UserID`, `BusinessID` and
`RoleID` are non-nil; `UpdateMemberRoleInBusinessAccountInput.Validate` returns nil iff
`BusinessID`, `MemberUserID` and `NewRoleID` are non-nil. -/
theorem validators_accept_iff_required_fields_present :
    (∀ u : UpdateBusinessAccountInput,
      u.Validate = none ↔
        (u.UserID ≠ UUID.Nil ∧ u.NewBusinessName ≠ "" ∧ u.BusinessID ≠ UUID.Nil)) ∧
    (∀ a : AddMemberToBusinessAccountInput,
      a.Validate = none ↔
        (a.UserID ≠ UUID.Nil ∧ a.BusinessID ≠ UUID.Nil ∧ a.RoleID ≠ UUID.Nil)) ∧
    (∀ m : UpdateMemberRoleInBusinessAccountInput,
      m.Validate = none ↔
        (m.BusinessID ≠ UUID.Nil ∧ m.MemberUserID ≠ UUID.Nil ∧ m.NewRoleID ≠ UUID.Nil)) :=
  ⟨validate_update_business_iff,
    validate_add_member_iff,
    validate_update_member_role_iff⟩

/-- C2 (as amended): `IsCountrySanctioned` and `RemoveSanctionedCountry` return an error with
the message `invalid country code` if and only if the length of the code in bytes (Go `len`,
the UTF-8 encoding) is neither 2 nor 3, and then the error is the value built by `errors.New`
and no request is handed to the transport; for a code of ASCII characters the length in
bytes is the length in characters. -/
theorem country_code_rejected_iff_byte_length (env : GoEnv) (c : Client) (countryCode : String) :
    ((IsCountrySanctioned env c countryCode).ret.2.map GoError.Error =
        some "invalid country code" ↔
      ¬ (countryCode.utf8ByteSize = 2 ∨ countryCode.utf8ByteSize = 3)) ∧
    ((RemoveSanctionedCountry env c countryCode).ret.map GoError.Error =
        some "invalid country code" ↔
      ¬ (countryCode.utf8ByteSize = 2 ∨ countryCode.utf8ByteSize = 3)) ∧
    (¬ (countryCode.utf8ByteSize = 2 ∨ countryCode.utf8ByteSize = 3) →
      IsCountrySanctioned env c countryCode =
        ⟨(false, some (.new "invalid country code")), []⟩ ∧
      RemoveSanctionedCountry env c countryCode = ⟨some (.new "invalid country code"), []⟩) ∧
    ((∀ ch ∈ countryCode.data, ch.toNat < 128) →
      countryCode.utf8ByteSize = countryCode.length) :=
  ⟨IsCountrySanctioned_invalid_iff env c countryCode,
    RemoveSanctionedCountry_invalid_iff env c countryCode,
    country_code_invalid_unsent env c countryCode, utf8ByteSize_ascii countryCode⟩

/-- Witness for C2 (as amended): the one-byte code `U` is rejected by both operations with
nothing sent, and its length in bytes is its length in characters. -/
theorem country_code_rejected_iff_byte_length_witness :
    ¬ ("U".utf8ByteSize = 2 ∨ "U".utf8ByteSize = 3) ∧
    (∀ ch ∈ "U".data, ch.toNat < 128) ∧
    (IsCountrySanctioned sampleEnv (stubClient "t" (response 200 "200 OK" "")) "U").sent = [] ∧
    (RemoveSanctionedCountry sampleEnv (stubClient "t" (response 200 "200 OK" ""))
      "U").sent = [] ∧
    "U".utf8ByteSize = "U".length :=
  ⟨by decide, by decide,
    congrArg Call.sent ((country_code_rejected_iff_byte_length sampleEnv
      (stubClient "t" (response 200 "200 OK" "")) "U").2.2.1 (by decide)).1,
    congrArg Call.sent ((country_code_rejected_iff_byte_length sampleEnv
      (stubClient "t" (response 200 "200 OK" "")) "U").2.2.1 (by decide)).2,
    (country_code_rejected_iff_byte_length sampleEnv
      (stubClient "t" (response 200 "200 OK" "")) "U").2.2.2 (by decide)⟩

/-- Counterexample to C2 as stated: the code `é` has one character and passes the validation
of `IsCountrySanctioned` (it has two bytes), and the code `日本` has two characters and is
rejected by `RemoveSanctionedCountry` (it has six bytes). -/
theorem country_code_character_length_counterexample :
    ("é".length = 1 ∧ "é".utf8ByteSize = 2 ∧
      (IsCountrySanctioned sampleEnv
        (stubClient "t" (response 200 "200 OK" "\x7b\"isSanctioned\": true\x7d"))
        "é").ret = (true, none)) ∧
    ("日本".length = 2 ∧ "日本".utf8ByteSize = 6 ∧
      (RemoveSanctionedCountry sampleEnv (stubClient "t" (response 200 "200 OK" ""))
        "日本").ret = some (.new "invalid country code")) ∧
    ¬ ((IsCountrySanctioned sampleEnv
          (stubClient "t" (response 200 "200 OK" "\x7b\"isSanctioned\": true\x7d"))
          "é").ret.2.map GoError.Error = some "invalid country code" ↔
      ¬ ("é".length = 2 ∨ "é".length = 3)) ∧
    ¬ ((RemoveSanctionedCountry sampleEnv (stubClient "t" (response 200 "200 OK" ""))
          "日本").ret.map GoError.Error = some "invalid country code" ↔
      ¬ ("日本".length = 2 ∨ "日本".length = 3)) := by
  decide

/-- C8 (as amended): for every client, whatever its token, every request that an operation
other than `DeleteBusinessAccount` hands to the transport carries the header `Authorization`
with the single value `Bearer ` followed by the token; `DeleteBusinessAccount` sets the header
only when the token is not empty, and with the empty token its request has no
`Authorization` header. -/
theorem authorization_header_on_requests (env : GoEnv) (c : Client) :
    (∀ input, ∀ req ∈ (CreateBusinessAccount env c input).sent,
      req.Header.Values "Authorization" = some ["Bearer " ++ c.Token]) ∧
    (∀ businessID, ∀ req ∈ (GetBusinessAccountByID env c businessID).sent,
      req.Header.Values "Authorization" = some ["Bearer " ++ c.Token]) ∧
    (∀ userID, ∀ req ∈ (GetBusinessAccountsByUserID env c userID).sent,
      req.Header.Values "Authorization" = some ["Bearer " ++ c.Token]) ∧
    (∀ input, ∀ req ∈ (UpdateBusinessAccount env c input).sent,
      req.Header.Values "Authorization" = some ["Bearer " ++ c.Token]) ∧
    (∀ req ∈ (ListBusinessAccounts env c).sent,
      req.Header.Values "Authorization" = some ["Bearer " ++ c.Token]) ∧
    (∀ input, ∀ req ∈ (AddMemberToBusinessAccount env c input).sent,
      req.Header.Values "Authorization" = some ["Bearer " ++ c.Token]) ∧
    (∀ businessID memberID,
      ∀ req ∈ (RemoveMemberFromBusinessAccount env c businessID memberID).sent,
      req.Header.Values "Authorization" = some ["Bearer " ++ c.Token]) ∧
    (∀ businessId, ∀ req ∈ (GetMembersOfBusinessAccount env c businessId).sent,
      req.Header.Values "Authorization" = some ["Bearer " ++ c.Token]) ∧
    (∀ input, ∀ req ∈ (UpdateMemberRoleInBusinessAccount env c input).sent,
      req.Header.Values "Authorization" = some ["Bearer " ++ c.Token]) ∧
    (∀ countryCode, ∀ req ∈ (IsCountrySanctioned env c countryCode).sent,
      req.Header.Values "Authorization" = some ["Bearer " ++ c.Token]) ∧
    (∀ countryCode countryName,
      ∀ req ∈ (AddSanctionedCountry env c countryCode countryName).sent,
      req.Header.Values "Authorization" = some ["Bearer " ++ c.Token]) ∧
    (∀ countryCode, ∀ req ∈ (RemoveSanctionedCountry env c countryCode).sent,
      req.Header.Values "Authorization" = some ["Bearer " ++ c.Token]) ∧
    (∀ businessID, ∀ req ∈ (DeleteBusinessAccount env c businessID).sent,
      req.Header.Values "Authorization" =
        if c.Token ≠ "" then some ["Bearer " ++ c.Token] else none) :=
  ⟨CreateBusinessAccount_authorization env c, GetBusinessAccountByID_authorization env c,
    GetBusinessAccountsByUserID_authorization env c, UpdateBusinessAccount_authorization env c,
    ListBusinessAccounts_authorization env c, AddMemberToBusinessAccount_authorization env c,
    RemoveMemberFromBusinessAccount_authorization env c,
    GetMembersOfBusinessAccount_authorization env c,
    UpdateMemberRoleInBusinessAccount_authorization env c,
    IsCountrySanctioned_authorization env c, AddSanctionedCountry_authorization env c,
    RemoveSanctionedCountry_authorization env c, DeleteBusinessAccount_authorization env c⟩

/-- Witness for C8 (as amended): with the empty token the request of `ListBusinessAccounts`
carries `Authorization: Bearer ` and with the token `t` the request of
`DeleteBusinessAccount` carries `Authorization: Bearer t`. -/
theorem authorization_header_on_requests_witness :
    (({ Method := "GET", URL := "http://localhost/business-accounts",
        Header := (Header.empty.Add "Authorization" "Bearer ").Add "x-api-key" "key",
        Body := none } : Request) ∈
        (ListBusinessAccounts sampleEnv (stubClient "" (response 200 "200 OK" "[]"))).sent ∧
      ((Header.empty.Add "Authorization" "Bearer ").Add "x-api-key" "key").Values
        "Authorization" = some ["Bearer " ++ ""]) ∧
    (({ Method := "DELETE",
        URL := "http://localhost/business/00000000-0000-0000-0000-000000000007",
        Header := (Header.empty.Add "Authorization" "Bearer t").Add "X-Api-Key" "key",
        Body := none } : Request) ∈
        (DeleteBusinessAccount sampleEnv (stubClient "t" (response 200 "200 OK" "")) 7).sent ∧
      ((Header.empty.Add "Authorization" "Bearer t").Add "X-Api-Key" "key").Values
        "Authorization" = some ["Bearer " ++ "t"]) :=
  ⟨⟨List.Mem.head _,
      (authorization_header_on_requests sampleEnv
        (stubClient "" (response 200 "200 OK" "[]"))).2.2.2.2.1 _ (List.Mem.head _)⟩,
    ⟨List.Mem.head _,
      (authorization_header_on_requests sampleEnv
        (stubClient "t" (response 200 "200 OK" ""))).2.2.2.2.2.2.2.2.2.2.2.2 7 _
          (List.Mem.head _)⟩⟩

/-- Counterexample to C8 as stated: with the empty token `DeleteBusinessAccount` hands one
request to the transport and that request has no `Authorization` header. -/
theorem authorization_header_counterexample :
    (DeleteBusinessAccount sampleEnv (stubClient "" (response 200 "200 OK" "")) 7).sent.map
        (fun req => (req.Method, req.URL, req.Header.Values "Authorization")) =
      [("DELETE", "http://localhost/business/00000000-0000-0000-0000-000000000007", none)] ∧
    (none : Option (List String)) ≠ some ["Bearer " ++ ""] := by
  decide

/-- C7: the code at the failing inputs.  `AddSanctionedCountry` with the one-byte code `X`
and with the four-byte code `ABCD` hands a POST carrying that code to the transport and
returns nil, where `IsCountrySanctioned` and `RemoveSanctionedCountry` reject the same codes
with `invalid country code` and send nothing. -/
theorem add_sanctioned_country_skips_length_check :
    ("X".utf8ByteSize = 1 ∧ "ABCD".utf8ByteSize = 4) ∧
    ((AddSanctionedCountry sampleEnv (stubClient "t" (response 200 "200 OK" ""))
        "X" "Nowhere").ret = none ∧
      (AddSanctionedCountry sampleEnv (stubClient "t" (response 200 "200 OK" ""))
        "X" "Nowhere").sent.map (fun req => (req.Method, req.URL, req.Body)) =
        [("POST", "http://localhost/api/sanctioned-countries",
          some ("\x7b\"id\":\"00000000-0000-0000-0000-000000000000\",\"country_code\":\"X\"," ++
            "\"country_name\":\"Nowhere\",\"added_at\":\"1970-01-01T00:00:00Z\"\x7d"))]) ∧
    ((AddSanctionedCountry sampleEnv (stubClient "t" (response 200 "200 OK" ""))
        "ABCD" "Nowhere").ret = none ∧
      (AddSanctionedCountry sampleEnv (stubClient "t" (response 200 "200 OK" ""))
        "ABCD" "Nowhere").sent.length = 1) ∧
    ((IsCountrySanctioned sampleEnv (stubClient "t" (response 200 "200 OK" "")) "X").ret =
        (false, some (.new "invalid country code")) ∧
      (IsCountrySanctioned sampleEnv (stubClient "t" (response 200 "200 OK" "")) "X").sent.length
        = 0 ∧
      (RemoveSanctionedCountry sampleEnv (stubClient "t" (response 200 "200 OK" "")) "X").ret =
        some (.new "invalid country code") ∧
      (RemoveSanctionedCountry sampleEnv (stubClient "t" (response 200 "200 OK" ""))
        "X").sent.length = 0) := by
  decide

/-- C9: the code at the failing inputs.  For the three-byte codes `a/b`, `U?x` and `U#x`
`RemoveSanctionedCountry` puts the code into the URL as it is, so the request goes to
`/api/sanctioned-countries/a/b`, or carries the query `x`, or the fragment `x`; the
path-escaped codes are `a%2Fb`, `U%3Fx` and `U%23x`, and `IsCountrySanctioned` does send
those. -/
theorem remove_sanctioned_country_url_unescaped :
    ((RemoveSanctionedCountry sampleEnv (stubClient "t" (response 200 "200 OK" ""))
        "a/b").sent.map (fun req => (req.Method, req.URL)) =
        [("DELETE", "http://localhost/api/sanctioned-countries/a/b")] ∧
      (RemoveSanctionedCountry sampleEnv (stubClient "t" (response 200 "200 OK" ""))
        "U?x").sent.map (fun req => (req.Method, req.URL)) =
        [("DELETE", "http://localhost/api/sanctioned-countries/U?x")] ∧
      (RemoveSanctionedCountry sampleEnv (stubClient "t" (response 200 "200 OK" ""))
        "U#x").sent.map (fun req => (req.Method, req.URL)) =
        [("DELETE", "http://localhost/api/sanctioned-countries/U#x")]) ∧
    (PathEscape "a/b" = "a%2Fb" ∧ PathEscape "U?x" = "U%3Fx" ∧ PathEscape "U#x" = "U%23x") ∧
    ((IsCountrySanctioned sampleEnv
        (stubClient "t" (response 200 "200 OK" "\x7b\"isSanctioned\": true\x7d"))
        "a/b").sent.map (fun req => (req.Method, req.URL)) =
        [("GET", "http://localhost/api/sanctions/countries/a%2Fb")]) := by
  decide

/-- C3: the code at the failing input, a server answering 500 with the body `boom`.  The
error of `CreateBusinessAccount` and of `GetMembersOfBusinessAccount` has the body and not
the status code; the error of `UpdateBusinessAccount`, `ListBusinessAccounts` and
`AddMemberToBusinessAccount` has the status code and not the body; the error of
`GetBusinessAccountsByUserID` and `DeleteBusinessAccount` has the status line and not the
body.  The sibling `GetBusinessAccountByID` reports both, as the claim says. -/
theorem error_message_omits_status_or_body :
    ((CreateBusinessAccount sampleEnv
        (stubClient "t" (response 500 "500 Internal Server Error" "boom")) ⟨1, "acme"⟩).ret =
          (none, some (.new "failed to create business account: boom")) ∧
      ¬ Contains "failed to create business account: boom" (itoa 500)) ∧
    ((GetMembersOfBusinessAccount sampleEnv
        (stubClient "t" (response 500 "500 Internal Server Error" "boom")) 7).ret =
          ([], some (.new "bad response from server: boom")) ∧
      ¬ Contains "bad response from server: boom" (itoa 500)) ∧
    ((UpdateBusinessAccount sampleEnv
        (stubClient "t" (response 500 "500 Internal Server Error" "boom"))
        ⟨1, "acme", "apex", 2⟩).ret = some (.new "unexpected status code: 500") ∧
      ¬ Contains "unexpected status code: 500" "boom") ∧
    ((ListBusinessAccounts sampleEnv
        (stubClient "t" (response 500 "500 Internal Server Error" "boom"))).ret =
          ([], some (.new "unexpected status code: 500")) ∧
      ¬ Contains "unexpected status code: 500" "boom") ∧
    ((AddMemberToBusinessAccount sampleEnv
        (stubClient "t" (response 500 "500 Internal Server Error" "boom")) ⟨1, 2, 3⟩).ret =
          some (.new "server returned status: 500") ∧
      ¬ Contains "server returned status: 500" "boom") ∧
    ((GetBusinessAccountsByUserID sampleEnv
        (stubClient "t" (response 500 "500 Internal Server Error" "boom")) 7).ret =
          ([], some (.new "bad response from server: 500 Internal Server Error")) ∧
      ¬ Contains "bad response from server: 500 Internal Server Error" "boom") ∧
    ((DeleteBusinessAccount sampleEnv
        (stubClient "t" (response 500 "500 Internal Server Error" "boom")) 7).ret =
          some (.new "unexpected HTTP status: 500 Internal Server Error") ∧
      ¬ Contains "unexpected HTTP status: 500 Internal Server Error" "boom") ∧
    ((GetBusinessAccountByID sampleEnv
        (stubClient "t" (response 500 "500 Internal Server Error" "boom")) 7).ret =
          (none, some (.new "bad status back from server: 500 (boom)")) ∧
      Contains "bad status back from server: 500 (boom)" (itoa 500) ∧
      Contains "bad status back from server: 500 (boom)" "boom") := by
  decide

/-- C4: `GetMembersOfBusinessAccount` accepts every status below 400 and the other list
operations accept 200 only.  When the base URL parses, the request can be built and the
transport answers it with `resp`, each operation hands exactly that one GET to the transport.
`GetMembersOfBusinessAccount` then returns the decoded membership list and no error when the
status is below 400 (201 for one) and the body decodes to a membership list, and an error
when the status is 400 or more; `GetBusinessAccountsByUserID` and `ListBusinessAccounts`
return an error for every status other than 200, 201 included. -/
theorem list_members_accepts_below_400 (env : GoEnv) (c : Client) (resp : Response) :
    (∀ (businessId : UUID) (u : URL),
      env.urlParse c.BaseURL = .ok u →
      env.newRequestErr "GET"
        (env.urlString
          { u with
            Path := env.pathJoin
              [u.Path, "api/v1/businesses", env.uuidString businessId, "members"] }) = none →
      c.HttpClient
        { Method := "GET"
          URL := env.urlString
            { u with
              Path := env.pathJoin
                [u.Path, "api/v1/businesses", env.uuidString businessId, "members"] }
          Header := (Header.empty.Set "Content-Type" "application/json").Set "Authorization"
            ("Bearer " ++ c.Token)
          Body := none } = .ok resp →
      (GetMembersOfBusinessAccount env c businessId).sent =
        [{ Method := "GET"
           URL := env.urlString
             { u with
               Path := env.pathJoin
                 [u.Path, "api/v1/businesses", env.uuidString businessId, "members"] }
           Header := (Header.empty.Set "Content-Type" "application/json").Set "Authorization"
             ("Bearer " ++ c.Token)
           Body := none }] ∧
      (∀ memberships, resp.StatusCode < 400 →
        env.decodeMemberships resp.Body = .ok memberships →
        (GetMembersOfBusinessAccount env c businessId).ret = (memberships, none)) ∧
      (resp.StatusCode ≥ 400 →
        (GetMembersOfBusinessAccount env c businessId).ret =
          ([], some (.new ("bad response from server: " ++ resp.Body.data))))) ∧
    (∀ (userID : UUID) (baseURL : URL),
      env.urlParse c.BaseURL = .ok baseURL →
      env.newRequestErr "GET"
        (env.urlString (env.resolveReference baseURL
          { Path := env.pathJoin ["users", env.uuidString userID, "business_accounts"] }))
        = none →
      c.HttpClient
        { Method := "GET"
          URL := env.urlString (env.resolveReference baseURL
            { Path := env.pathJoin ["users", env.uuidString userID, "business_accounts"] })
          Header := (Header.empty.Set "Content-Type" "application/json").Set "Authorization"
            ("Bearer " ++ c.Token)
          Body := none } = .ok resp →
      (GetBusinessAccountsByUserID env c userID).sent =
        [{ Method := "GET"
           URL := env.urlString (env.resolveReference baseURL
             { Path := env.pathJoin ["users", env.uuidString userID, "business_accounts"] })
           Header := (Header.empty.Set "Content-Type" "application/json").Set "Authorization"
             ("Bearer " ++ c.Token)
           Body := none }] ∧
      (resp.StatusCode ≠ 200 →
        (GetBusinessAccountsByUserID env c userID).ret =
          ([], some (.new ("bad response from server: " ++ resp.Status))))) ∧
    (∀ reqURL : URL,
      env.urlParse c.BaseURL = .ok reqURL →
      env.newRequestErr "GET"
        (env.urlString
          { reqURL with Path := env.pathJoin [reqURL.Path, "business-accounts"] }) = none →
      c.HttpClient
        { Method := "GET"
          URL := env.urlString
            { reqURL with Path := env.pathJoin [reqURL.Path, "business-accounts"] }
          Header := (Header.empty.Add "Authorization" ("Bearer " ++ c.Token)).Add "x-api-key"
            c.ApiKey
          Body := none } = .ok resp →
      (ListBusinessAccounts env c).sent =
        [{ Method := "GET"
           URL := env.urlString
             { reqURL with Path := env.pathJoin [reqURL.Path, "business-accounts"] }
           Header := (Header.empty.Add "Authorization" ("Bearer " ++ c.Token)).Add "x-api-key"
             c.ApiKey
           Body := none }] ∧
      (resp.StatusCode ≠ 200 →
        (ListBusinessAccounts env c).ret =
          ([], some (.new ("unexpected status code: " ++ itoa resp.StatusCode))))) := by
  refine ⟨?_, ?_, ?_⟩
  · intro businessId u hparse hreq hdo
    refine ⟨?_, ?_, ?_⟩
    · simp only [GetMembersOfBusinessAccount, hparse, NewRequest, hreq, hdo]
      repeat' split
      all_goals rfl
    · intro memberships hs hd
      simp only [GetMembersOfBusinessAccount, hparse, NewRequest, hreq, hdo, hd]
      rw [if_neg (by omega)]
    · intro hs
      simp only [GetMembersOfBusinessAccount, hparse, NewRequest, hreq, hdo, ReadAll]
      rw [if_pos hs]
  · intro userID baseURL hparse hreq hdo
    refine ⟨?_, ?_⟩
    · simp only [GetBusinessAccountsByUserID, hparse, NewRequest, hreq, hdo]
      repeat' split
      all_goals rfl
    · intro hs
      simp only [GetBusinessAccountsByUserID, hparse, NewRequest, hreq, hdo]
      rw [if_pos hs]
  · intro reqURL hparse hreq hdo
    refine ⟨?_, ?_⟩
    · simp only [ListBusinessAccounts, hparse, NewRequest, hreq, hdo]
      repeat' split
      all_goals rfl
    · intro hs
      simp only [ListBusinessAccounts, hparse, NewRequest, hreq, hdo]
      rw [if_pos hs]

/-- Witness for C4: a stub server answering 201 with a one-element list.  The base URL
`http://localhost` parses and the requests are built; `GetMembersOfBusinessAccount` sends
its GET and returns the membership list, `GetBusinessAccountsByUserID` and
`ListBusinessAccounts` send theirs and return an error for the same status. -/
theorem list_members_accepts_below_400_witness :
    ((GetMembersOfBusinessAccount sampleEnv
        (stubClient "t" (response 201 "201 Created" ("[" ++ sampleMembershipJSON ++ "]")))
        7).sent.map (fun req => (req.Method, req.URL)) =
        [("GET", "http://localhost/api/v1/businesses/" ++
          "00000000-0000-0000-0000-000000000007/members")] ∧
      (GetMembersOfBusinessAccount sampleEnv
        (stubClient "t" (response 201 "201 Created" ("[" ++ sampleMembershipJSON ++ "]")))
        7).ret = ([sampleMembership], none)) ∧
    ((GetBusinessAccountsByUserID sampleEnv
        (stubClient "t" (response 201 "201 Created" ("[" ++ sampleBusinessJSON ++ "]")))
        7).sent.map (fun req => (req.Method, req.URL)) =
        [("GET", "http://localhost/users/" ++
          "00000000-0000-0000-0000-000000000007/business_accounts")] ∧
      (GetBusinessAccountsByUserID sampleEnv
        (stubClient "t" (response 201 "201 Created" ("[" ++ sampleBusinessJSON ++ "]")))
        7).ret = ([], some (.new "bad response from server: 201 Created"))) ∧
    ((ListBusinessAccounts sampleEnv
        (stubClient "t" (response 201 "201 Created" ("[" ++ sampleBusinessJSON ++ "]")))
        ).sent.map (fun req => (req.Method, req.URL)) =
        [("GET", "http://localhost/business-accounts")] ∧
      (ListBusinessAccounts sampleEnv
        (stubClient "t" (response 201 "201 Created" ("[" ++ sampleBusinessJSON ++ "]")))
        ).ret = ([], some (.new "unexpected status code: 201"))) :=
  ⟨⟨congrArg (List.map fun req => (req.Method, req.URL))
        ((list_members_accepts_below_400 sampleEnv
          (stubClient "t" (response 201 "201 Created" ("[" ++ sampleMembershipJSON ++ "]")))
          (response 201 "201 Created" ("[" ++ sampleMembershipJSON ++ "]"))).1 7
            { Scheme := "http", Host := "localhost" } rfl rfl rfl).1,
      ((list_members_accepts_below_400 sampleEnv
          (stubClient "t" (response 201 "201 Created" ("[" ++ sampleMembershipJSON ++ "]")))
          (response 201 "201 Created" ("[" ++ sampleMembershipJSON ++ "]"))).1 7
            { Scheme := "http", Host := "localhost" } rfl rfl rfl).2.1 [sampleMembership]
              (by decide) rfl⟩,
    ⟨congrArg (List.map fun req => (req.Method, req.URL))
        ((list_members_accepts_below_400 sampleEnv
          (stubClient "t" (response 201 "201 Created" ("[" ++ sampleBusinessJSON ++ "]")))
          (response 201 "201 Created" ("[" ++ sampleBusinessJSON ++ "]"))).2.1 7
            { Scheme := "http", Host := "localhost" } rfl rfl rfl).1,
      ((list_members_accepts_below_400 sampleEnv
          (stubClient "t" (response 201 "201 Created" ("[" ++ sampleBusinessJSON ++ "]")))
          (response 201 "201 Created" ("[" ++ sampleBusinessJSON ++ "]"))).2.1 7
            { Scheme := "http", Host := "localhost" } rfl rfl rfl).2 (by decide)⟩,
    ⟨congrArg (List.map fun req => (req.Method, req.URL))
        ((list_members_accepts_below_400 sampleEnv
          (stubClient "t" (response 201 "201 Created" ("[" ++ sampleBusinessJSON ++ "]")))
          (response 201 "201 Created" ("[" ++ sampleBusinessJSON ++ "]"))).2.2
            { Scheme := "http", Host := "localhost" } rfl rfl rfl).1,
      ((list_members_accepts_below_400 sampleEnv
          (stubClient "t" (response 201 "201 Created" ("[" ++ sampleBusinessJSON ++ "]")))
          (response 201 "201 Created" ("[" ++ sampleBusinessJSON ++ "]"))).2.2
            { Scheme := "http", Host := "localhost" } rfl rfl rfl).2 (by decide)⟩⟩

/-- C5: the round trip of `CreateBusinessAccount`.  When the base URL parses, the input
marshals, the request can be built and the transport answers it with `resp`, the operation
hands exactly one request to the transport, a POST.  If the status is 201 and the body is the
JSON of a Business record `b` (decoding it into a struct with the keys `id`,
`user_account_id`, `created_at`, `updated_at` sets the fields to those of `b`), the operation
returns `b` and no error; for any other status, 200 included, it returns a nil Business and an
error. -/
theorem create_business_round_trip (env : GoEnv) (c : Client)
    (input : CreateBusinessAccountInput) (resp : Response) (requestURL : URL) (payload : String)
    (hparse : env.urlParse c.BaseURL = .ok requestURL)
    (hmarshal : env.jsonMarshal (.createBusiness input) = .ok payload)
    (hreq : env.newRequestErr "POST"
      (env.urlString
        { requestURL with Path := env.pathJoin [requestURL.Path, "/api/v1/business/"] }) = none)
    (hdo : c.HttpClient
      { Method := "POST"
        URL := env.urlString
          { requestURL with Path := env.pathJoin [requestURL.Path, "/api/v1/business/"] }
        Header := ((Header.empty.Set "Content-Type" "application/json").Set "Authorization"
          ("Bearer " ++ c.Token)).Set "X-Api-Key" c.ApiKey
        Body := some payload } = .ok resp) :
    (CreateBusinessAccount env c input).sent =
      [{ Method := "POST"
         URL := env.urlString
           { requestURL with Path := env.pathJoin [requestURL.Path, "/api/v1/business/"] }
         Header := ((Header.empty.Set "Content-Type" "application/json").Set "Authorization"
           ("Bearer " ++ c.Token)).Set "X-Api-Key" c.ApiKey
         Body := some payload }] ∧
    (∀ b : Business, resp.StatusCode = 201 →
      env.jsonDecode resp.Body Business.zero.fields = .ok b.fields →
      (CreateBusinessAccount env c input).ret = (some b, none)) ∧
    (resp.StatusCode ≠ 201 →
      (CreateBusinessAccount env c input).ret =
        (none, some (.new ("failed to create business account: " ++ resp.Body.data)))) := by
  refine ⟨?_, ?_, ?_⟩
  · simp only [CreateBusinessAccount, hparse, hmarshal, NewRequest, hreq, hdo]
    repeat' split
    all_goals rfl
  · intro b hs hd
    simp only [CreateBusinessAccount, hparse, hmarshal, NewRequest, hreq, hdo, hs, hd,
      Business.ofFields_fields]
    simp
  · intro hs
    simp only [CreateBusinessAccount, hparse, hmarshal, NewRequest, hreq, hdo, ReadAll]
    simp [hs]

/-- Witness for C5: for the base URL `http://localhost` and the input named `acme`, a stub
server answering 201 with the JSON of `sampleBusiness` receives one POST and the operation
returns `sampleBusiness`; the same body under status 200 gives a nil Business and an error. -/
theorem create_business_round_trip_witness :
    ((CreateBusinessAccount sampleEnv
        (stubClient "t" (response 201 "201 Created" sampleBusinessJSON))
        ⟨1, "acme"⟩).sent.map (fun req => (req.Method, req.URL, req.Body)) =
        [("POST", "http://localhost/api/v1/business",
          some ("\x7b\"user_id\":\"00000000-0000-0000-0000-000000000001\"," ++
            "\"business_name\":\"acme\"\x7d"))] ∧
      (CreateBusinessAccount sampleEnv
        (stubClient "t" (response 201 "201 Created" sampleBusinessJSON)) ⟨1, "acme"⟩).ret =
          (some sampleBusiness, none)) ∧
    (CreateBusinessAccount sampleEnv
      (stubClient "t" (response 200 "200 OK" sampleBusinessJSON)) ⟨1, "acme"⟩).ret =
        (none, some (.new ("failed to create business account: " ++ sampleBusinessJSON))) :=
  ⟨⟨congrArg (List.map fun req => (req.Method, req.URL, req.Body))
        (create_business_round_trip sampleEnv
          (stubClient "t" (response 201 "201 Created" sampleBusinessJSON)) ⟨1, "acme"⟩
          (response 201 "201 Created" sampleBusinessJSON)
          { Scheme := "http", Host := "localhost" }
          ("\x7b\"user_id\":\"00000000-0000-0000-0000-000000000001\"," ++
            "\"business_name\":\"acme\"\x7d") rfl rfl rfl rfl).1,
      (create_business_round_trip sampleEnv
          (stubClient "t" (response 201 "201 Created" sampleBusinessJSON)) ⟨1, "acme"⟩
          (response 201 "201 Created" sampleBusinessJSON)
          { Scheme := "http", Host := "localhost" }
          ("\x7b\"user_id\":\"00000000-0000-0000-0000-000000000001\"," ++
            "\"business_name\":\"acme\"\x7d") rfl rfl rfl rfl).2.1 sampleBusiness
            (by decide) rfl⟩,
    (create_business_round_trip sampleEnv
        (stubClient "t" (response 200 "200 OK" sampleBusinessJSON)) ⟨1, "acme"⟩
        (response 200 "200 OK" sampleBusinessJSON)
        { Scheme := "http", Host := "localhost" }
        ("\x7b\"user_id\":\"00000000-0000-0000-0000-000000000001\"," ++
          "\"business_name\":\"acme\"\x7d") rfl rfl rfl rfl).2.2 (by decide)⟩

/-- C6: the flag of `IsCountrySanctioned`.  For a country code of valid length (2 or 3
bytes, `US` for one), when the request can be built and the transport answers it with `resp`,
the operation hands exactly one GET to the transport.  If the status is 200 and the body is
the JSON object with `isSanctioned` set to the boolean `v` (decoding it into a struct with the
key `isSanctioned` sets that field to `v`), the operation returns `v` and no error; for every
other status it returns false and an error. -/
theorem is_country_sanctioned_flag (env : GoEnv) (c : Client) (countryCode : String)
    (resp : Response)
    (hlen : countryCode.utf8ByteSize = 2 ∨ countryCode.utf8ByteSize = 3)
    (hreq : env.newRequestErr "GET"
      (c.BaseURL ++ "/api/sanctions/countries/" ++ PathEscape countryCode) = none)
    (hdo : c.HttpClient
      { Method := "GET"
        URL := c.BaseURL ++ "/api/sanctions/countries/" ++ PathEscape countryCode
        Header := ((Header.empty.Set "Content-Type" "application/json").Set "Authorization"
          ("Bearer " ++ c.Token)).Set "X-API-Key" c.ApiKey
        Body := none } = .ok resp) :
    (IsCountrySanctioned env c countryCode).sent =
      [{ Method := "GET"
         URL := c.BaseURL ++ "/api/sanctions/countries/" ++ PathEscape countryCode
         Header := ((Header.empty.Set "Content-Type" "application/json").Set "Authorization"
           ("Bearer " ++ c.Token)).Set "X-API-Key" c.ApiKey
         Body := none }] ∧
    (∀ v : Bool, resp.StatusCode = 200 →
      env.jsonDecode resp.Body [("isSanctioned", .bool false)] =
        .ok [("isSanctioned", .bool v)] →
      (IsCountrySanctioned env c countryCode).ret = (v, none)) ∧
    (resp.StatusCode ≠ 200 →
      (IsCountrySanctioned env c countryCode).ret =
        (false, some (.new ("unexpected status code: got " ++ itoa resp.StatusCode ++
          ", body: " ++ resp.Body.data)))) := by
  have hguard : ¬ (countryCode.utf8ByteSize < 2 ∨ countryCode.utf8ByteSize > 3) := by omega
  refine ⟨?_, ?_, ?_⟩
  · simp only [IsCountrySanctioned, if_neg hguard, NewRequest, hreq, hdo]
    repeat' split
    all_goals rfl
  · intro v hs hd
    simp only [IsCountrySanctioned, if_neg hguard, NewRequest, hreq, hdo, hs, hd]
    cases v <;> rfl
  · intro hs
    simp only [IsCountrySanctioned, if_neg hguard, NewRequest, hreq, hdo, ReadAll]
    simp [hs]

/-- Witness for C6: for the code `US` a stub server answering 200 with the flag set to true
receives one GET and the operation returns true, with the flag set to false it returns false,
and a stub server answering 500 gives false and an error. -/
theorem is_country_sanctioned_flag_witness :
    ("US".utf8ByteSize = 2 ∨ "US".utf8ByteSize = 3) ∧
    ((IsCountrySanctioned sampleEnv
        (stubClient "t" (response 200 "200 OK" "\x7b\"isSanctioned\": true\x7d"))
        "US").sent.map (fun req => (req.Method, req.URL)) =
        [("GET", "http://localhost/api/sanctions/countries/US")] ∧
      (IsCountrySanctioned sampleEnv
        (stubClient "t" (response 200 "200 OK" "\x7b\"isSanctioned\": true\x7d")) "US").ret =
          (true, none)) ∧
    (IsCountrySanctioned sampleEnv
      (stubClient "t" (response 200 "200 OK" "\x7b\"isSanctioned\": false\x7d")) "US").ret =
        (false, none) ∧
    (IsCountrySanctioned sampleEnv
      (stubClient "t" (response 500 "500 Internal Server Error" "boom")) "US").ret =
        (false, some (.new "unexpected status code: got 500, body: boom")) :=
  ⟨by decide,
    ⟨congrArg (List.map fun req => (req.Method, req.URL))
        (is_country_sanctioned_flag sampleEnv
          (stubClient "t" (response 200 "200 OK" "\x7b\"isSanctioned\": true\x7d")) "US"
          (response 200 "200 OK" "\x7b\"isSanctioned\": true\x7d") (by decide) rfl rfl).1,
      (is_country_sanctioned_flag sampleEnv
          (stubClient "t" (response 200 "200 OK" "\x7b\"isSanctioned\": true\x7d")) "US"
          (response 200 "200 OK" "\x7b\"isSanctioned\": true\x7d") (by decide) rfl rfl).2.1
            true (by decide) rfl⟩,
    (is_country_sanctioned_flag sampleEnv
        (stubClient "t" (response 200 "200 OK" "\x7b\"isSanctioned\": false\x7d")) "US"
        (response 200 "200 OK" "\x7b\"isSanctioned\": false\x7d") (by decide) rfl rfl).2.1
          false (by decide) rfl,
    (is_country_sanctioned_flag sampleEnv
        (stubClient "t" (response 500 "500 Internal Server Error" "boom")) "US"
        (response 500 "500 Internal Server Error" "boom") (by decide) rfl rfl).2.2
          (by decide)⟩

end Accountslib
